import Mathlib

/-!
Verification development for the mbnsc passive network-traffic analyzer.

The Go source is shallowly embedded: byte slices become `List Nat`
(each element a byte value), Go strings become Lean `String`
(or `List Char` where character-level reasoning is needed), Go maps
become association lists, and the gopacket packet object becomes an
explicit structure carrying the fields the program reads.  `uint32`
arithmetic is `Nat` arithmetic reduced `% 2^32` at the points where the
source stores into a `uint32`.
-/

set_option maxRecDepth 10000

/-! ## stream_reassembler.go -/

/-- `FlowKey` from packet.go: 5-tuple identity of a flow. -/
structure FlowKey where
  SrcIP : String
  DstIP : String
  SrcPort : String
  DstPort : String
  Proto : String
deriving DecidableEq

/-- The zero value `FlowKey{}` returned for non-TCP packets. -/
def FlowKey.empty : FlowKey := ⟨"", "", "", "", ""⟩

/-- `MaxBufferSize` from stream_reassembler.go (65535 bytes). -/
def MaxBufferSize : Nat := 65535

/-- `StreamBuffer` from stream_reassembler.go.  The `LastActivity`
timestamp only feeds the idle-eviction sweep (real time, not modelled);
the fields the packet path reads are embedded. -/
structure StreamBuffer where
  Buffer : List Nat
  NextSeq : Nat
  Initialized : Bool
deriving DecidableEq

/-- The freshly created buffer of `ProcessPacket` (zero-length buffer,
sequence number not yet initialized). -/
def StreamBuffer.fresh : StreamBuffer := ⟨[], 0, false⟩

/-- The reassembler's `streams` map, as an association list. -/
abbrev Streams := List (FlowKey × StreamBuffer)

/-- Map lookup `sr.streams[flowKey]`. -/
def lookupStream : Streams → FlowKey → Option StreamBuffer
  | [], _ => none
  | (k', v) :: rest, k => if k' = k then some v else lookupStream rest k

/-- Map store `sr.streams[flowKey] = stream` (replace or append). -/
def insertStream : Streams → FlowKey → StreamBuffer → Streams
  | [], k, v => [(k, v)]
  | (k', v') :: rest, k, v =>
      if k' = k then (k, v) :: rest else (k', v') :: insertStream rest k v

/-- Map delete `delete(sr.streams, flowKey)`. -/
def eraseStream (ss : Streams) (k : FlowKey) : Streams :=
  ss.filter (fun p => ¬ p.1 = k)

/-- `peekTLSRecord` from stream_reassembler.go lines 180-207: returns
(complete?, complete data).  Buffers shorter than 5 bytes are never
complete; a buffer whose first byte is not 0x16 is returned whole;
otherwise the record is complete once `5 + recordLen` bytes are held,
where `recordLen` is the big-endian 16-bit value in bytes 3-4. -/
def peekTLSRecord (buffer : List Nat) : Bool × List Nat :=
  if buffer.length < 5 then (false, [])
  else if buffer.getD 0 0 ≠ 0x16 then (true, buffer)
  else
    let recordLen := (buffer.getD 3 0) <<< 8 ||| (buffer.getD 4 0)
    let totalLen := 5 + recordLen
    if totalLen ≤ buffer.length then (true, buffer.take totalLen)
    else (false, [])

/-- The per-packet buffer mutation of `ProcessPacket`
(stream_reassembler.go lines 135-161): initialize on the first packet,
append in order (resetting on overflow past `MaxBufferSize`), reset on
a forward sequence gap, ignore a retransmission. -/
def updateStream (stream : StreamBuffer) (seq : Nat) (payload : List Nat) :
    StreamBuffer :=
  if ¬ stream.Initialized then
    { Buffer := stream.Buffer ++ payload
      NextSeq := (seq + payload.length) % 2 ^ 32
      Initialized := true }
  else if seq = stream.NextSeq then
    if stream.Buffer.length + payload.length ≤ MaxBufferSize then
      { stream with
          Buffer := stream.Buffer ++ payload
          NextSeq := (seq + payload.length) % 2 ^ 32 }
    else
      { stream with
          Buffer := payload
          NextSeq := (seq + payload.length) % 2 ^ 32 }
  else if stream.NextSeq < seq then
    { stream with
        Buffer := payload
        NextSeq := (seq + payload.length) % 2 ^ 32 }
  else
    stream

/-- The TCP-with-payload path of `ProcessPacket`
(stream_reassembler.go lines 114-176): get-or-create the flow's buffer,
mutate it, then peek; on a complete unit delete the flow entry and
return the data with ready=true, otherwise keep the mutated buffer. -/
def processPacketTCP (ss : Streams) (k : FlowKey) (seq : Nat)
    (payload : List Nat) : Option (List Nat) × Bool × Streams :=
  if payload = [] then (none, false, ss)
  else
    let stream := (lookupStream ss k).getD StreamBuffer.fresh
    let stream' := updateStream stream seq payload
    let peeked := peekTLSRecord stream'.Buffer
    if peeked.1 then (some peeked.2, true, eraseStream ss k)
    else (none, false, insertStream ss k stream')

/-! ## TLS detection and SNI extraction (parser source, part_001) -/

/-- A Go byte-slice index `l[i]`: `none` models the runtime panic on an
out-of-range index. -/
def getB (l : List Nat) (i : Nat) : Option Nat := l.get? i

/-- A Go sub-slice `l[a:b]`: `none` models the runtime panic when the
bounds are invalid. -/
def sliceB (l : List Nat) (a b : Nat) : Option (List Nat) :=
  if a ≤ b ∧ b ≤ l.length then some ((l.drop a).take (b - a)) else none

/-- Go `string(bytes)`.  The program only extracts ASCII hostnames, for
which UTF-8 decoding is the byte-to-character map. -/
def bytesToString (bs : List Nat) : String := String.mk (bs.map Char.ofNat)

/-- The server-name entry loop of `parseSNIExtension` (part_001 lines
351-371), entered at `pos = 2`.  The `fuel` argument only bounds the
iteration count; the totality theorem shows it is never exhausted at
the fuel the caller supplies (`none` would mark exhaustion or a panic). -/
def parseSNIExtLoop (data : List Nat) : Nat → Nat → Option String
  | _, 0 => none
  | pos, fuel + 1 =>
    if pos + 3 ≤ data.length then do
      let nameType ← getB data pos
      let n0 ← getB data (pos + 1)
      let n1 ← getB data (pos + 2)
      let nameLen := n0 <<< 8 ||| n1
      if data.length < pos + 3 + nameLen then return ""
      if nameType = 0 then do
        let seg ← sliceB data (pos + 3) (pos + 3 + nameLen)
        return bytesToString seg
      else parseSNIExtLoop data (pos + 3 + nameLen) fuel
    else return ""

/-- `parseSNIExtension` from part_001 lines 338-373: a 2-byte list
length followed by (type:1B, length:2B, bytes) entries; the first
entry of type 0 (host_name) is returned. -/
def parseSNIExtensionChecked (data : List Nat) : Option String := do
  if data.length < 2 then return ""
  let l0 ← getB data 0
  let l1 ← getB data 1
  let listLen := l0 <<< 8 ||| l1
  if data.length < 2 + listLen then return ""
  parseSNIExtLoop data 2 (data.length + 1)

/-- The extensions-iteration loop of `extractSNI` (part_001 lines
312-332).  `fuel` only bounds iterations, as in `parseSNIExtLoop`. -/
def sniExtensionsLoop (payload : List Nat) (extensionsEnd : Nat) :
    Nat → Nat → Option String
  | _, 0 => none
  | pos, fuel + 1 =>
    if pos + 4 ≤ extensionsEnd then do
      let t0 ← getB payload pos
      let t1 ← getB payload (pos + 1)
      let e0 ← getB payload (pos + 2)
      let e1 ← getB payload (pos + 3)
      let extType := t0 <<< 8 ||| t1
      let extLen := e0 <<< 8 ||| e1
      if payload.length < pos + 4 + extLen then return ""
      if extType = 0 then do
        let body ← sliceB payload (pos + 4) (pos + 4 + extLen)
        parseSNIExtensionChecked body
      else sniExtensionsLoop payload extensionsEnd (pos + 4 + extLen) fuel
    else return ""

/-- `extractSNI` from part_001 lines 212-335, with every byte access
checked: the result is `none` exactly when the Go code would index out
of range (shown impossible below), and `some s` when it returns `s`. -/
def extractSNIChecked (payload : List Nat) : Option String := do
  if payload.length < 6 then return ""
  let b0 ← getB payload 0
  if b0 ≠ 0x16 then return ""
  let b3 ← getB payload 3
  let b4 ← getB payload 4
  let recordLen := b3 <<< 8 ||| b4
  if payload.length < 5 + recordLen then return ""
  if payload.length ≤ 5 then return ""
  let ht ← getB payload 5
  if ht ≠ 1 then return ""
  if payload.length < 9 then return ""
  if payload.length < 11 then return ""
  if payload.length < 43 then return ""
  if payload.length ≤ 43 then return ""
  let sidLen ← getB payload 43
  if payload.length < 44 + sidLen then return ""
  let p1 := 44 + sidLen
  if payload.length < p1 + 2 then return ""
  let c0 ← getB payload p1
  let c1 ← getB payload (p1 + 1)
  let cipherSuitesLen := c0 <<< 8 ||| c1
  let p2 := p1 + 2
  if payload.length < p2 + cipherSuitesLen then return ""
  let p3 := p2 + cipherSuitesLen
  if payload.length ≤ p3 then return ""
  let compLen ← getB payload p3
  let p4 := p3 + 1
  if payload.length < p4 + compLen then return ""
  let p5 := p4 + compLen
  if payload.length < p5 + 2 then return ""
  let x0 ← getB payload p5
  let x1 ← getB payload (p5 + 1)
  let extensionsLen := x0 <<< 8 ||| x1
  let p6 := p5 + 2
  if payload.length < p6 + extensionsLen then return ""
  sniExtensionsLoop payload (p6 + extensionsLen) p6 (payload.length + 1)

/-- `extractSNI` as the string-valued function the parser calls; the
totality theorem below shows the checked version never panics, so the
default never fires. -/
def extractSNI (payload : List Nat) : String :=
  (extractSNIChecked payload).getD ""

/-- `isTLSHandshake` from part_001 lines 175-193: at least 6 bytes,
first byte 0x16, and a version in 0x0301-0x0304. -/
def isTLSHandshake (payload : List Nat) : Bool :=
  if payload.length < 6 then false
  else if payload.getD 0 0 ≠ 0x16 then false
  else
    let version := (payload.getD 1 0) <<< 8 ||| (payload.getD 2 0)
    if version < 0x0301 ∨ 0x0304 < version then false
    else true

/-- One lowercase hexadecimal digit, as `fmt.Sprintf %x` renders it. -/
def hexDigit (n : Nat) : Char :=
  if n < 10 then Char.ofNat (48 + n) else Char.ofNat (87 + n)

/-- Four lowercase hexadecimal digits, as `fmt.Sprintf("%04x", v)`
renders a `uint16`. -/
def hex4 (v : Nat) : String :=
  String.mk [hexDigit (v / 4096 % 16), hexDigit (v / 256 % 16),
             hexDigit (v / 16 % 16), hexDigit (v % 16)]

/-- `getTLSVersionString` from part_001 lines 196-209. -/
def getTLSVersionString (version : Nat) : String :=
  if version = 0x0301 then "TLS 1.0"
  else if version = 0x0302 then "TLS 1.1"
  else if version = 0x0303 then "TLS 1.2"
  else if version = 0x0304 then "TLS 1.3"
  else "Unknown (0x" ++ hex4 version ++ ")"

/-! ## Packet model and parser pipeline (part_001, packet.go) -/

/-- One DNS answer record as gopacket exposes it: the numeric record
type (`layers.DNSTypeA = 1`, `layers.DNSTypeAAAA = 28`) and the decoded
IP literal (`none` models a nil `answer.IP`). -/
structure DNSAnswer where
  type : Nat
  ip : Option String
deriving DecidableEq

/-- The decoded DNS layer as gopacket exposes it: response flag,
question names, answers. -/
structure DNSMsg where
  QR : Bool
  Questions : List String
  Answers : List DNSAnswer
deriving DecidableEq

/-- The gopacket packet object, restricted to the accessors this
program reads.  `appLayerPresent`/`appPayload` model
`packet.ApplicationLayer()` and its `Payload()` result (`[]` for nil);
per gopacket, a decoded DNS layer is the application layer and its
`Payload()` is nil. -/
structure GoPacket where
  timestamp : Nat
  length : Nat
  hasNetwork : Bool
  srcIP : String
  dstIP : String
  hasTCP : Bool
  tcpSrcPort : String
  tcpDstPort : String
  tcpSeq : Nat
  tcpAck : Nat
  syn : Bool
  ack : Bool
  fin : Bool
  rst : Bool
  psh : Bool
  urg : Bool
  tcpPayload : List Nat
  hasUDP : Bool
  udpSrcPort : String
  udpDstPort : String
  udpPayload : List Nat
  appLayerPresent : Bool
  appPayload : List Nat
  appLayerTypeName : String
  dns : Option DNSMsg
deriving DecidableEq

/-- `PacketInfo` from packet.go (fields the embedded pipeline writes;
`RawData` and `ProcessPID` are carried unmodified by the core and are
omitted). -/
structure PacketInfo where
  Timestamp : Nat
  Length : Nat
  SrcIP : String
  DstIP : String
  Protocol : String
  SrcPort : String
  DstPort : String
  TCPFlags : String
  SequenceNum : Nat
  AckNum : Nat
  AppProtocol : String
  Payload : List Nat
  IsTLS : Bool
  TLSVersion : String
  SNI : String
  CipherSuite : String
  IsDNS : Bool
  DNSQueryName : String
  DNSResponseIPs : List String
  Direction : String
  RemoteIP : String
  LocalPort : String
  RemotePort : String
  ProcessName : String
deriving DecidableEq

/-- The Go zero value of `PacketInfo`. -/
def PacketInfo.zero : PacketInfo :=
  ⟨0, 0, "", "", "", "", "", "", 0, 0, "", [], false, "", "", "", false,
   "", [], "", "", "", "", ""⟩

/-- The `FlowKey` built by `ProcessPacket` for a TCP packet
(stream_reassembler.go lines 98-112); IPs are empty when there is no
network layer. -/
def buildFlowKey (pkt : GoPacket) : FlowKey :=
  { SrcIP := if pkt.hasNetwork then pkt.srcIP else ""
    DstIP := if pkt.hasNetwork then pkt.dstIP else ""
    SrcPort := pkt.tcpSrcPort
    DstPort := pkt.tcpDstPort
    Proto := "TCP" }

/-- Full `ProcessPacket` (stream_reassembler.go lines 85-176): non-TCP
packets pass their application payload straight through (`ready=true`)
when an application layer exists; TCP packets with payload go through
the per-flow buffer.  Result: (data (`none` = nil), ready, flow key,
updated stream map). -/
def ProcessPacket (ss : Streams) (pkt : GoPacket) :
    Option (List Nat) × Bool × FlowKey × Streams :=
  if ¬ pkt.hasTCP then
    if pkt.appLayerPresent then (some pkt.appPayload, true, FlowKey.empty, ss)
    else (none, false, FlowKey.empty, ss)
  else
    let fk := buildFlowKey pkt
    if pkt.tcpPayload = [] then (none, false, fk, ss)
    else
      let r := processPacketTCP ss fk pkt.tcpSeq pkt.tcpPayload
      (r.1, r.2.1, fk, r.2.2)

/-- `parseNetworkLayer` from part_001 lines 73-79. -/
def parseNetworkLayer (pkt : GoPacket) (info : PacketInfo) : PacketInfo :=
  if pkt.hasNetwork then { info with SrcIP := pkt.srcIP, DstIP := pkt.dstIP }
  else info

/-- The TCP flag string built by `parseTransportLayer`
(part_001 lines 91-111). -/
def tcpFlagsString (pkt : GoPacket) : String :=
  String.intercalate ","
    ((if pkt.syn then ["SYN"] else []) ++ (if pkt.ack then ["ACK"] else []) ++
     (if pkt.fin then ["FIN"] else []) ++ (if pkt.rst then ["RST"] else []) ++
     (if pkt.psh then ["PSH"] else []) ++ (if pkt.urg then ["URG"] else []))

/-- `parseTransportLayer` from part_001 lines 82-122. -/
def parseTransportLayer (pkt : GoPacket) (info : PacketInfo) : PacketInfo :=
  if pkt.hasTCP then
    { info with
        Protocol := "TCP"
        SrcPort := pkt.tcpSrcPort
        DstPort := pkt.tcpDstPort
        SequenceNum := pkt.tcpSeq
        AckNum := pkt.tcpAck
        TCPFlags := tcpFlagsString pkt
        Payload := pkt.tcpPayload }
  else if pkt.hasUDP then
    { info with
        Protocol := "UDP"
        SrcPort := pkt.udpSrcPort
        DstPort := pkt.udpDstPort
        Payload := pkt.udpPayload }
  else info

/-- `parseTLS` from part_001 lines 151-172. -/
def parseTLS (info : PacketInfo) : PacketInfo :=
  if ¬ isTLSHandshake info.Payload then info
  else
    let info := { info with IsTLS := true }
    let info :=
      if 3 ≤ info.Payload.length then
        { info with
            TLSVersion := getTLSVersionString
              ((info.Payload.getD 1 0) <<< 8 ||| (info.Payload.getD 2 0)) }
      else info
    let sni := extractSNI info.Payload
    if sni ≠ "" then { info with SNI := sni } else info

/-- `parseDNS` from part_001 lines 437-477: needs a decoded DNS layer;
sets `IsDNS`; on a response (QR set) takes the first question as the
query name and appends the IP of every A/AAAA answer. -/
def parseDNS (pkt : GoPacket) (info : PacketInfo) : PacketInfo :=
  match pkt.dns with
  | none => info
  | some d =>
    let info := { info with IsDNS := true }
    if ¬ d.QR then info
    else
      let info :=
        if 0 < d.Questions.length then
          { info with DNSQueryName := d.Questions.getD 0 "" }
        else info
      { info with
          DNSResponseIPs := d.Answers.foldl (fun acc a =>
            if a.type = 1 then
              match a.ip with
              | some s => acc ++ [s]
              | none => acc
            else if a.type = 28 then
              match a.ip with
              | some s => acc ++ [s]
              | none => acc
            else acc) [] }

/-- `parseApplicationLayer` from part_001 lines 125-140: record the
application-layer type, try TLS, and try DNS for UDP port 53. -/
def parseApplicationLayer (pkt : GoPacket) (info : PacketInfo) : PacketInfo :=
  let info :=
    if pkt.appLayerPresent then { info with AppProtocol := pkt.appLayerTypeName }
    else info
  if 0 < info.Payload.length then
    let info := parseTLS info
    if info.Protocol = "UDP" ∧
        (info.SrcPort = "53(domain)" ∨ info.DstPort = "53(domain)") then
      parseDNS pkt info
    else info
  else info

/-- `parseApplicationLayerWithPayload` from part_001 lines 143-148:
only TLS detection on the reassembled payload. -/
def parseApplicationLayerWithPayload (info : PacketInfo) : PacketInfo :=
  if 0 < info.Payload.length then parseTLS info else info

/-- `Sscanf(s, "%d", &n)` on a list of characters: the leading decimal
digits (0 when there are none), as the canonical dotted-quad octet
strings the program feeds it always are. -/
def decimalVal (cs : List Char) : Nat :=
  (cs.takeWhile Char.isDigit).foldl (fun n c => n * 10 + (c.toNat - 48)) 0

/-- `isLocalIP` from part_001 lines 408-434: string-prefix tests for
10/8, 192.168/16, 127/8, 169.254/16 and an octet-range test for
172.16/12. -/
def isLocalIP (ip : String) : Bool :=
  let cs := ip.toList
  if List.isPrefixOf "10.".toList cs || List.isPrefixOf "192.168.".toList cs
      || List.isPrefixOf "127.".toList cs
      || List.isPrefixOf "169.254.".toList cs then
    true
  else if List.isPrefixOf "172.".toList cs then
    let parts := cs.splitOn '.'
    if 2 ≤ parts.length then
      let so := decimalVal (parts.getD 1 [])
      decide (16 ≤ so ∧ so ≤ 31)
    else false
  else false

/-- `determineDirection` from part_001 lines 376-405. -/
def determineDirection (info : PacketInfo) : PacketInfo :=
  let srcIsLocal := isLocalIP info.SrcIP
  let dstIsLocal := isLocalIP info.DstIP
  if srcIsLocal && !dstIsLocal then
    { info with Direction := "send", RemoteIP := info.DstIP,
                LocalPort := info.SrcPort, RemotePort := info.DstPort }
  else if !srcIsLocal && dstIsLocal then
    { info with Direction := "recv", RemoteIP := info.SrcIP,
                LocalPort := info.DstPort, RemotePort := info.SrcPort }
  else if !srcIsLocal && !dstIsLocal then
    { info with Direction := "send", RemoteIP := info.DstIP,
                LocalPort := info.SrcPort, RemotePort := info.DstPort }
  else
    { info with Direction := "local", RemoteIP := info.DstIP,
                LocalPort := info.SrcPort, RemotePort := info.DstPort }

/-- `Parse` from part_001 lines 32-70: reassemble, then decode network,
transport and application layers, then classify direction.  Returns
`none` while a TCP flow is still buffering. -/
def Parse (ss : Streams) (pkt : GoPacket) : Option PacketInfo × Streams :=
  let r := ProcessPacket ss pkt
  let reassembled := r.1
  let ready := r.2.1
  let ss' := r.2.2.2
  if ¬ ready then (none, ss')
  else
    let info : PacketInfo :=
      { PacketInfo.zero with Timestamp := pkt.timestamp, Length := pkt.length }
    let info := parseNetworkLayer pkt info
    let info := parseTransportLayer pkt info
    let info :=
      match reassembled with
      | some rp =>
          if rp ≠ [] then parseApplicationLayerWithPayload { info with Payload := rp }
          else parseApplicationLayer pkt info
      | none => parseApplicationLayer pkt info
    let info := determineDirection info
    (some info, ss')

/-! ## Aggregation store (part_000) -/

/-- `ConnectionRecord` from part_000. -/
structure ConnectionRecord where
  Timestamp : Nat
  LocalPort : String
  RemotePort : String
  PacketSize : Nat
  Direction : String
  Protocol : String
  TCPFlags : String
  IsTLS : Bool
  SNI : String
  ProcessName : String
deriving DecidableEq

/-- `RemoteIPStats` from part_000.  The Go `map[string]int` frequency
tables become association lists (a Go map holds each key at most
once). -/
structure RemoteIPStats where
  RemoteIP : String
  Records : List ConnectionRecord
  TotalPackets : Nat
  TotalBytes : Nat
  SendPackets : Nat
  RecvPackets : Nat
  SendBytes : Nat
  RecvBytes : Nat
  FirstSeen : Nat
  LastSeen : Nat
  RemotePorts : List (String × Nat)
  LocalPorts : List (String × Nat)
  SNINames : List (String × Nat)
  DNSNames : List (String × Nat)
  Processes : List (String × Nat)
  TLSCount : Nat
  Protocols : List (String × Nat)
deriving DecidableEq

/-- Association-list lookup, mirroring a Go map read that reports
presence (`v, ok := m[k]`). -/
def lookupA {α : Type} : List (String × α) → String → Option α
  | [], _ => none
  | (k', v) :: rest, k => if k' = k then some v else lookupA rest k

/-- Association-list store `m[k] = v` (replace or append). -/
def insertA {α : Type} : List (String × α) → String → α → List (String × α)
  | [], k, v => [(k, v)]
  | (k', v') :: rest, k, v =>
      if k' = k then (k, v) :: rest else (k', v') :: insertA rest k v

/-- The Go counter increment `m[k]++` (missing keys count as 0). -/
def bump (m : List (String × Nat)) (k : String) : List (String × Nat) :=
  insertA m k ((lookupA m k).getD 0 + 1)

/-- `DataStore` from part_000: per-remote-IP statistics and the
IP-to-domains DNS correlation cache. -/
structure DataStore where
  stats : List (String × RemoteIPStats)
  dnsCache : List (String × List String)
deriving DecidableEq

/-- `NewDataStore`: both maps empty. -/
def DataStore.empty : DataStore := ⟨[], []⟩

/-- The fresh `RemoteIPStats` created by `Store` (part_000 lines
70-80), seeded from the DNS cache (lines 84-88). -/
def newStatsFor (ds : DataStore) (remoteIP : String) (timestamp : Nat) :
    RemoteIPStats :=
  let base : RemoteIPStats :=
    { RemoteIP := remoteIP, Records := [], TotalPackets := 0, TotalBytes := 0
      SendPackets := 0, RecvPackets := 0, SendBytes := 0, RecvBytes := 0
      FirstSeen := timestamp, LastSeen := 0
      RemotePorts := [], LocalPorts := [], SNINames := [], DNSNames := []
      Processes := [], TLSCount := 0, Protocols := [] }
  match lookupA ds.dnsCache remoteIP with
  | some cachedDomains =>
      { base with DNSNames := cachedDomains.foldl (fun m d => bump m d) base.DNSNames }
  | none => base

/-- The `ConnectionRecord` snapshot appended by `Store`
(part_000 lines 92-103). -/
def recordOf (info : PacketInfo) : ConnectionRecord :=
  { Timestamp := info.Timestamp, LocalPort := info.LocalPort
    RemotePort := info.RemotePort, PacketSize := info.Length
    Direction := info.Direction, Protocol := info.Protocol
    TCPFlags := info.TCPFlags, IsTLS := info.IsTLS, SNI := info.SNI
    ProcessName := info.ProcessName }

/-- The counter/table updates of `Store` applied to one
`RemoteIPStats` (part_000 lines 104-146). -/
def updateStats (stats : RemoteIPStats) (info : PacketInfo) : RemoteIPStats :=
  let stats := { stats with
      Records := stats.Records ++ [recordOf info]
      TotalPackets := stats.TotalPackets + 1
      TotalBytes := stats.TotalBytes + info.Length
      LastSeen := info.Timestamp }
  let stats :=
    if info.Direction = "send" then
      { stats with SendPackets := stats.SendPackets + 1
                   SendBytes := stats.SendBytes + info.Length }
    else if info.Direction = "recv" then
      { stats with RecvPackets := stats.RecvPackets + 1
                   RecvBytes := stats.RecvBytes + info.Length }
    else stats
  let stats :=
    if info.RemotePort ≠ "" then
      { stats with RemotePorts := bump stats.RemotePorts info.RemotePort }
    else stats
  let stats :=
    if info.LocalPort ≠ "" then
      { stats with LocalPorts := bump stats.LocalPorts info.LocalPort }
    else stats
  let stats :=
    if info.SNI ≠ "" then
      { stats with SNINames := bump stats.SNINames info.SNI }
    else stats
  let stats :=
    if info.ProcessName ≠ "" then
      { stats with Processes := bump stats.Processes info.ProcessName }
    else stats
  let stats := if info.IsTLS then { stats with TLSCount := stats.TLSCount + 1 } else stats
  let stats :=
    if info.Protocol ≠ "" then
      { stats with Protocols := bump stats.Protocols info.Protocol }
    else stats
  stats

/-- One resolved IP of the DNS-response block of `Store`
(part_000 lines 150-174): idempotently cache the query name for that
IP, and bump the live DNS-name table when the IP already has stats. -/
def storeDNSForIP (queryName : String) (ds : DataStore) (responseIP : String) :
    DataStore :=
  let cached := (lookupA ds.dnsCache responseIP).getD []
  let cached' := if queryName ∈ cached then cached else cached ++ [queryName]
  let ds := { ds with dnsCache := insertA ds.dnsCache responseIP cached' }
  match lookupA ds.stats responseIP with
  | some ipStats =>
      { ds with stats := (insertA ds.stats responseIP
          { ipStats with DNSNames := bump ipStats.DNSNames queryName }) }
  | none => ds

/-- `Store` from part_000 lines 59-176. -/
def Store (ds : DataStore) (info : PacketInfo) : DataStore :=
  if info.RemoteIP = "" then ds
  else
    let stats :=
      match lookupA ds.stats info.RemoteIP with
      | some s => s
      | none => newStatsFor ds info.RemoteIP info.Timestamp
    let stats := updateStats stats info
    let ds := { ds with stats := insertA ds.stats info.RemoteIP stats }
    if info.IsDNS ∧ info.DNSQueryName ≠ "" ∧ info.DNSResponseIPs ≠ [] then
      info.DNSResponseIPs.foldl (storeDNSForIP info.DNSQueryName) ds
    else ds

/-- Folding `Store` over a packet sequence. -/
def storeList (ds : DataStore) (infos : List PacketInfo) : DataStore :=
  infos.foldl Store ds

/-- `GetTotalBytes` from part_000 lines 212-221. -/
def GetTotalBytes (ds : DataStore) : Nat :=
  (ds.stats.map (fun p => p.2.TotalBytes)).sum

/-- `GetTotalPackets` from part_000 lines 200-209. -/
def GetTotalPackets (ds : DataStore) : Nat :=
  (ds.stats.map (fun p => p.2.TotalPackets)).sum

/-! ## Claim-side definitions and concrete test inputs -/

/-- The resolved-IP extraction as the spec words it: every A/AAAA
answer record contributes its IP literal, in order. -/
def dnsAnswerIPsSpec (answers : List DNSAnswer) : List String :=
  answers.filterMap (fun a => if a.type = 1 ∨ a.type = 28 then a.ip else none)

/-- Decimal digit characters of a natural number, as Go renders an
IPv4 octet (`net.IP.String` emits canonical decimal octets). -/
def natDigits (n : Nat) : List Char := Nat.toDigits 10 n

/-- The canonical dotted-quad rendering `a.b.c.d` of an IPv4 address,
as the packet layer hands addresses to the parser. -/
def ipv4Render (a b c d : Nat) : String :=
  String.mk (natDigits a ++ '.' :: (natDigits b ++ '.' :: (natDigits c ++ '.' :: natDigits d)))

/-- The address ranges the claim calls local: 10.0.0.0/8,
172.16.0.0/12, 192.168.0.0/16, 127.0.0.0/8, 169.254.0.0/16 (membership
depends only on the first two octets). -/
def inLocalRanges (a b : Nat) : Prop :=
  a = 10 ∨ (a = 172 ∧ 16 ≤ b ∧ b ≤ 31) ∨ (a = 192 ∧ b = 168) ∨ a = 127 ∨
    (a = 169 ∧ b = 254)

instance (a b : Nat) : Decidable (inLocalRanges a b) := by
  unfold inLocalRanges
  infer_instance

/-- A well-formed 72-byte ClientHello record whose server_name
extension carries host_name "example.com". -/
def goodClientHello : List Nat :=
  [0x16, 0x03, 0x03, 0x00, 0x43,
   0x01, 0x00, 0x00, 0x3f,
   0x03, 0x03,
   0, 0, 0, 0, 0, 0, 0, 0, 0, 0, 0, 0, 0, 0, 0, 0,
   0, 0, 0, 0, 0, 0, 0, 0, 0, 0, 0, 0, 0, 0, 0, 0,
   0x00,
   0x00, 0x02, 0x13, 0x01,
   0x01, 0x00,
   0x00, 0x14,
   0x00, 0x00, 0x00, 0x10,
   0x00, 0x0e,
   0x00,
   0x00, 0x0b,
   101, 120, 97, 109, 112, 108, 101, 46, 99, 111, 109]

/-- The same ClientHello with its extensions block truncated one byte
short (record and handshake lengths adjusted accordingly): the
extensions-length field still declares 20 bytes but only 19 remain. -/
def truncatedClientHello : List Nat :=
  [0x16, 0x03, 0x03, 0x00, 0x42,
   0x01, 0x00, 0x00, 0x3e,
   0x03, 0x03,
   0, 0, 0, 0, 0, 0, 0, 0, 0, 0, 0, 0, 0, 0, 0, 0,
   0, 0, 0, 0, 0, 0, 0, 0, 0, 0, 0, 0, 0, 0, 0, 0,
   0x00,
   0x00, 0x02, 0x13, 0x01,
   0x01, 0x00,
   0x00, 0x14,
   0x00, 0x00, 0x00, 0x10,
   0x00, 0x0e,
   0x00,
   0x00, 0x0b,
   101, 120, 97, 109, 112, 108, 101, 46, 99, 111]

/-- A server-name extension body whose first entry has name-type 1 and
whose second entry (name-type 0) is "abc": the type-0 entry is the one
returned. -/
def twoEntrySNIExtension : List Nat :=
  [0x00, 0x0b, 0x01, 0x00, 0x02, 97, 98, 0x00, 0x00, 0x03, 97, 98, 99]

/-- A decoded DNS response naming IP 1.2.3.4 as "bad.example",
observed as traffic from DNS server 8.8.8.8. -/
def dnsRespPacket : PacketInfo :=
  { PacketInfo.zero with
      Timestamp := 1
      Length := 100
      Protocol := "UDP"
      Direction := "recv"
      RemoteIP := "8.8.8.8"
      RemotePort := "53(domain)"
      LocalPort := "5555"
      IsDNS := true
      DNSQueryName := "bad.example"
      DNSResponseIPs := ["1.2.3.4"] }

/-- A later data packet whose remote IP is 1.2.3.4. -/
def dataPacket1234 : PacketInfo :=
  { PacketInfo.zero with
      Timestamp := 2
      Length := 60
      Protocol := "TCP"
      Direction := "send"
      RemoteIP := "1.2.3.4"
      RemotePort := "443(https)"
      LocalPort := "1444" }

/-- A UDP port-53 DNS response packet as gopacket presents it: the DNS
layer is the application layer, so `ApplicationLayer().Payload()` is
nil. -/
def udpDNSPacket : GoPacket :=
  { timestamp := 10
    length := 90
    hasNetwork := true
    srcIP := "8.8.8.8"
    dstIP := "192.168.1.5"
    hasTCP := false
    tcpSrcPort := ""
    tcpDstPort := ""
    tcpSeq := 0
    tcpAck := 0
    syn := false
    ack := false
    fin := false
    rst := false
    psh := false
    urg := false
    tcpPayload := []
    hasUDP := true
    udpSrcPort := "53(domain)"
    udpDstPort := "5555"
    udpPayload := [1, 2, 3]
    appLayerPresent := true
    appPayload := []
    appLayerTypeName := "DNS"
    dns := some ⟨true, ["bad.example"],
      [⟨1, some "1.2.3.4"⟩, ⟨28, some "2001:db8::1"⟩, ⟨5, some "cname"⟩,
       ⟨1, none⟩]⟩ }

/-- A plain TCP data packet (no DNS layer). -/
def tcpDataPacket : GoPacket :=
  { timestamp := 11
    length := 60
    hasNetwork := true
    srcIP := "192.168.1.5"
    dstIP := "8.8.4.4"
    hasTCP := true
    tcpSrcPort := "1025"
    tcpDstPort := "80(http)"
    tcpSeq := 5
    tcpAck := 1
    syn := false
    ack := true
    fin := false
    rst := false
    psh := true
    urg := false
    tcpPayload := [0x41, 0x42, 0x43, 0x44, 0x45]
    hasUDP := false
    udpSrcPort := ""
    udpDstPort := ""
    udpPayload := []
    appLayerPresent := true
    appPayload := [0x41, 0x42, 0x43, 0x44, 0x45]
    appLayerTypeName := "Payload"
    dns := none }

/-- The DNS-related fields of a decoded record, bundled for the
gating lemmas. -/
def dnsFields (i : PacketInfo) : Bool × String × List String :=
  (i.IsDNS, i.DNSQueryName, i.DNSResponseIPs)

/-- The per-IP bookkeeping invariant of the store: the running
counters agree with the retained connection records. -/
def statsConsistent (s : RemoteIPStats) : Prop :=
  s.TotalPackets = s.Records.length ∧
  s.TotalBytes = (s.Records.map (fun r => r.PacketSize)).sum ∧
  s.SendPackets = s.Records.countP (fun r => r.Direction == "send") ∧
  s.RecvPackets = s.Records.countP (fun r => r.Direction == "recv")

/-- The store-wide invariant: per-IP consistency and a duplicate-free
DNS cache. -/
def storeConsistent (ds : DataStore) : Prop :=
  (∀ ip s, lookupA ds.stats ip = some s → statsConsistent s) ∧
  (∀ ip l, lookupA ds.dnsCache ip = some l → l.Nodup)

/-! ## Reassembler lemmas -/

theorem lookupStream_erase_self (ss : Streams) (k : FlowKey) :
    lookupStream (eraseStream ss k) k = none := by
  induction ss with
  | nil => rfl
  | cons p rest ih =>
      by_cases h : p.1 = k
      · simpa [eraseStream, h] using ih
      · simpa [eraseStream, lookupStream, h] using ih

theorem lookupStream_insert_self (ss : Streams) (k : FlowKey)
    (v : StreamBuffer) : lookupStream (insertStream ss k v) k = some v := by
  induction ss with
  | nil => simp [insertStream, lookupStream]
  | cons p rest ih =>
      by_cases h : p.1 = k
      · cases p
        simp_all [insertStream, lookupStream]
      · cases p
        simp_all [insertStream, lookupStream]

theorem peek_ready_tls (buf : List Nat) (h0 : buf.getD 0 0 = 0x16) :
    (peekTLSRecord buf).1 = true ↔
      5 + ((buf.getD 3 0) <<< 8 ||| (buf.getD 4 0)) ≤ buf.length := by
  unfold peekTLSRecord
  by_cases h5 : buf.length < 5
  · rw [if_pos h5]
    constructor
    · intro h
      exact absurd h (by simp)
    · intro h
      omega
  · rw [if_neg h5, if_neg (not_not_intro h0)]
    dsimp only
    by_cases hT : 5 + ((buf.getD 3 0) <<< 8 ||| (buf.getD 4 0)) ≤ buf.length
    · rw [if_pos hT]
      simpa using hT
    · rw [if_neg hT]
      simpa using hT

theorem peek_data_tls (buf : List Nat) (h0 : buf.getD 0 0 = 0x16)
    (h : 5 + ((buf.getD 3 0) <<< 8 ||| (buf.getD 4 0)) ≤ buf.length) :
    peekTLSRecord buf =
      (true, buf.take (5 + ((buf.getD 3 0) <<< 8 ||| (buf.getD 4 0)))) := by
  unfold peekTLSRecord
  rw [if_neg (by omega), if_neg (not_not_intro h0)]
  dsimp only
  rw [if_pos h]

theorem peek_nontls (buf : List Nat) (h0 : ¬ buf.getD 0 0 = 0x16) :
    peekTLSRecord buf = if 5 ≤ buf.length then (true, buf) else (false, []) := by
  unfold peekTLSRecord
  by_cases h5 : buf.length < 5
  · rw [if_pos h5, if_neg (by omega)]
  · rw [if_neg h5, if_pos h0, if_pos (by omega)]

theorem processPacketTCP_eq (ss : Streams) (k : FlowKey) (seq : Nat)
    (payload : List Nat) (hne : payload ≠ []) :
    processPacketTCP ss k seq payload =
      (let st := updateStream ((lookupStream ss k).getD StreamBuffer.fresh) seq payload
       if (peekTLSRecord st.Buffer).1 then
         (some (peekTLSRecord st.Buffer).2, true, eraseStream ss k)
       else (none, false, insertStream ss k st)) := by
  simp [processPacketTCP, hne]

theorem tlsCompletionAux (ss : Streams) (k : FlowKey) (seq : Nat)
    (payload : List Nat) (hne : payload ≠ []) (st' : StreamBuffer)
    (hst : st' = updateStream ((lookupStream ss k).getD StreamBuffer.fresh) seq payload)
    (h0 : st'.Buffer.getD 0 0 = 0x16) :
    ((processPacketTCP ss k seq payload).2.1 = true ↔
      5 + ((st'.Buffer.getD 3 0) <<< 8 ||| (st'.Buffer.getD 4 0)) ≤ st'.Buffer.length) ∧
    (5 + ((st'.Buffer.getD 3 0) <<< 8 ||| (st'.Buffer.getD 4 0)) ≤ st'.Buffer.length →
      (processPacketTCP ss k seq payload).1 =
        some (st'.Buffer.take
          (5 + ((st'.Buffer.getD 3 0) <<< 8 ||| (st'.Buffer.getD 4 0)))) ∧
      lookupStream (processPacketTCP ss k seq payload).2.2 k = none) := by
  rw [processPacketTCP_eq ss k seq payload hne]
  dsimp only
  rw [← hst]
  by_cases hr : 5 + ((st'.Buffer.getD 3 0) <<< 8 ||| (st'.Buffer.getD 4 0)) ≤ st'.Buffer.length
  · rw [peek_data_tls st'.Buffer h0 hr]
    simp [lookupStream_erase_self]
    simpa using hr
  · have hb : (peekTLSRecord st'.Buffer).1 = false := by
      rw [← Bool.not_eq_true]
      intro h
      exact hr ((peek_ready_tls st'.Buffer h0).1 h)
    rw [hb]
    simp only [Bool.false_eq_true, if_false]
    exact ⟨by simpa using hr, fun h => absurd h hr⟩

theorem tlsScenarioAux (b1 b2 b3 b4 b5 : Nat) (s1 s2 s3 : List Nat)
    (k : FlowKey) (seq0 : Nat) (h1 : s1 ≠ []) (h2 : s2 ≠ []) (h3 : s3 ≠ [])
    (hcat : s1 ++ s2 ++ s3 = [0x16, 0x03, 0x03, 0x00, 0x05, b1, b2, b3, b4, b5]) :
    (processPacketTCP [] k seq0 s1).2.1 = false ∧
    (processPacketTCP (processPacketTCP [] k seq0 s1).2.2 k
        ((seq0 + s1.length) % 2 ^ 32) s2).2.1 = false ∧
    (processPacketTCP
        (processPacketTCP (processPacketTCP [] k seq0 s1).2.2 k
          ((seq0 + s1.length) % 2 ^ 32) s2).2.2 k
        (((seq0 + s1.length) % 2 ^ 32 + s2.length) % 2 ^ 32) s3).1 =
      some [0x16, 0x03, 0x03, 0x00, 0x05, b1, b2, b3, b4, b5] ∧
    (processPacketTCP
        (processPacketTCP (processPacketTCP [] k seq0 s1).2.2 k
          ((seq0 + s1.length) % 2 ^ 32) s2).2.2 k
        (((seq0 + s1.length) % 2 ^ 32 + s2.length) % 2 ^ 32) s3).2.1 = true ∧
    lookupStream
      (processPacketTCP
        (processPacketTCP (processPacketTCP [] k seq0 s1).2.2 k
          ((seq0 + s1.length) % 2 ^ 32) s2).2.2 k
        (((seq0 + s1.length) % 2 ^ 32 + s2.length) % 2 ^ 32) s3).2.2 k = none := by
  have hlen : s1.length + s2.length + s3.length = 10 := by
    have h := congrArg List.length hcat
    simp at h
    omega
  have hl1 : 0 < s1.length := List.length_pos.mpr h1
  have hl2 : 0 < s2.length := List.length_pos.mpr h2
  have hl3 : 0 < s3.length := List.length_pos.mpr h3
  have hfull1 : s1 ++ (s2 ++ s3) = [0x16, 0x03, 0x03, 0x00, 0x05, b1, b2, b3, b4, b5] := by
    rw [← List.append_assoc]
    exact hcat
  -- facts about prefixes of the concatenation
  have hget1 : ∀ i : Nat, i < s1.length →
      s1.getD i 0 = ([0x16, 0x03, 0x03, 0x00, 0x05, b1, b2, b3, b4, b5] : List Nat).getD i 0 := by
    intro i hi
    rw [← hfull1, List.getD_append _ _ _ _ hi]
  have hget12 : ∀ i : Nat, i < s1.length + s2.length →
      (s1 ++ s2).getD i 0 = ([0x16, 0x03, 0x03, 0x00, 0x05, b1, b2, b3, b4, b5] : List Nat).getD i 0 := by
    intro i hi
    rw [← hcat]
    exact (List.getD_append (s1 ++ s2) s3 0 i (by simp; omega)).symm
  -- first call
  set n1 := (seq0 + s1.length) % 2 ^ 32 with hn1
  have hupd1 : updateStream StreamBuffer.fresh seq0 s1 = ⟨s1, n1, true⟩ := by
    simp [updateStream, StreamBuffer.fresh, hn1]
  have hpeek1 : (peekTLSRecord s1).1 = false := by
    rw [← Bool.not_eq_true]
    intro hready
    by_cases hc : s1.length < 5
    · unfold peekTLSRecord at hready
      rw [if_pos hc] at hready
      simp at hready
    · have h0 : s1.getD 0 0 = 0x16 := by
        rw [hget1 0 (by omega)]
        rfl
      have hL3 : s1.getD 3 0 = 0 := by
        rw [hget1 3 (by omega)]
        rfl
      have hL4 : s1.getD 4 0 = 5 := by
        rw [hget1 4 (by omega)]
        rfl
      have := (peek_ready_tls s1 h0).1 hready
      rw [hL3, hL4] at this
      have hv : ((0 : Nat) <<< 8 ||| 5) = 5 := by decide
      rw [hv] at this
      omega
  have e1 : processPacketTCP [] k seq0 s1 = (none, false, [(k, ⟨s1, n1, true⟩)]) := by
    rw [processPacketTCP_eq [] k seq0 s1 h1]
    dsimp only [lookupStream, Option.getD]
    rw [hupd1]
    simp [hpeek1, insertStream]
  -- second call
  rw [e1]
  set n2 := (n1 + s2.length) % 2 ^ 32 with hn2
  have hlook2 : lookupStream [(k, (⟨s1, n1, true⟩ : StreamBuffer))] k = some ⟨s1, n1, true⟩ := by
    simp [lookupStream]
  have hupd2 : updateStream ⟨s1, n1, true⟩ n1 s2 = ⟨s1 ++ s2, n2, true⟩ := by
    unfold updateStream
    rw [if_neg (by simp), if_pos rfl, if_pos (by simp [MaxBufferSize]; omega)]
  have hpeek2 : (peekTLSRecord (s1 ++ s2)).1 = false := by
    rw [← Bool.not_eq_true]
    intro hready
    by_cases hc : (s1 ++ s2).length < 5
    · unfold peekTLSRecord at hready
      rw [if_pos hc] at hready
      simp at hready
    · have h0 : (s1 ++ s2).getD 0 0 = 0x16 := by
        rw [hget12 0 (by omega)]
        rfl
      have hL3 : (s1 ++ s2).getD 3 0 = 0 := by
        rw [hget12 3 (by simp at hc; omega)]
        rfl
      have hL4 : (s1 ++ s2).getD 4 0 = 5 := by
        rw [hget12 4 (by simp at hc; omega)]
        rfl
      have := (peek_ready_tls _ h0).1 hready
      rw [hL3, hL4] at this
      have hv : ((0 : Nat) <<< 8 ||| 5) = 5 := by decide
      rw [hv] at this
      simp at this
      omega
  have e2 : processPacketTCP [(k, (⟨s1, n1, true⟩ : StreamBuffer))] k n1 s2 =
      (none, false, [(k, ⟨s1 ++ s2, n2, true⟩)]) := by
    rw [processPacketTCP_eq _ k n1 s2 h2]
    dsimp only
    rw [hlook2]
    dsimp only [Option.getD]
    rw [hupd2]
    simp [hpeek2, insertStream]
  rw [e2]
  -- third call
  have hlook3 : lookupStream [(k, (⟨s1 ++ s2, n2, true⟩ : StreamBuffer))] k =
      some ⟨s1 ++ s2, n2, true⟩ := by
    simp [lookupStream]
  have hupd3 : updateStream ⟨s1 ++ s2, n2, true⟩ n2 s3 =
      ⟨[0x16, 0x03, 0x03, 0x00, 0x05, b1, b2, b3, b4, b5], (n2 + s3.length) % 2 ^ 32, true⟩ := by
    unfold updateStream
    rw [if_neg (by simp), if_pos rfl, if_pos (by simp [MaxBufferSize]; omega)]
    simp [hcat]
  have hpeek3 : peekTLSRecord [0x16, 0x03, 0x03, 0x00, 0x05, b1, b2, b3, b4, b5] =
      (true, [0x16, 0x03, 0x03, 0x00, 0x05, b1, b2, b3, b4, b5]) := by
    have h0 : ([0x16, 0x03, 0x03, 0x00, 0x05, b1, b2, b3, b4, b5] : List Nat).getD 0 0 = 0x16 := rfl
    have hr : 5 + ((([0x16, 0x03, 0x03, 0x00, 0x05, b1, b2, b3, b4, b5] : List Nat).getD 3 0) <<< 8 |||
        (([0x16, 0x03, 0x03, 0x00, 0x05, b1, b2, b3, b4, b5] : List Nat).getD 4 0)) ≤
        ([0x16, 0x03, 0x03, 0x00, 0x05, b1, b2, b3, b4, b5] : List Nat).length := by
      simp [List.getD]
    rw [peek_data_tls _ h0 hr]
    norm_num [List.getD]
  have e3 : processPacketTCP [(k, (⟨s1 ++ s2, n2, true⟩ : StreamBuffer))] k n2 s3 =
      (some [0x16, 0x03, 0x03, 0x00, 0x05, b1, b2, b3, b4, b5], true,
        eraseStream [(k, (⟨s1 ++ s2, n2, true⟩ : StreamBuffer))] k) := by
    rw [processPacketTCP_eq _ k n2 s3 h3]
    dsimp only
    rw [hlook3]
    dsimp only [Option.getD]
    rw [hupd3]
    simp [hpeek3]
  rw [e3]
  refine ⟨rfl, rfl, rfl, rfl, lookupStream_erase_self _ k⟩

/-- C1: for a TCP flow whose (post-mutation) buffer starts with byte
0x16, `ProcessPacket` reports completion exactly when the buffer holds
at least `5 + L` bytes, `L` the big-endian 16-bit value in bytes 3-4;
on completion it returns ready with exactly those `5 + L` bytes and
removes the flow entry.  In particular, for in-order segments whose
concatenation is `[0x16,3,3,0,5,b1,b2,b3,b4,b5]` split across three
packets, the call completing byte 10 returns ready with exactly those
10 bytes and the flow's buffer is gone afterward. -/
theorem c1_tls_record_completion :
    (∀ (ss : Streams) (k : FlowKey) (seq : Nat) (payload : List Nat),
      payload ≠ [] → ∀ st' : StreamBuffer,
      st' = updateStream ((lookupStream ss k).getD StreamBuffer.fresh) seq payload →
      st'.Buffer.getD 0 0 = 0x16 →
      ((processPacketTCP ss k seq payload).2.1 = true ↔
        5 + ((st'.Buffer.getD 3 0) <<< 8 ||| (st'.Buffer.getD 4 0)) ≤ st'.Buffer.length) ∧
      (5 + ((st'.Buffer.getD 3 0) <<< 8 ||| (st'.Buffer.getD 4 0)) ≤ st'.Buffer.length →
        (processPacketTCP ss k seq payload).1 =
          some (st'.Buffer.take
            (5 + ((st'.Buffer.getD 3 0) <<< 8 ||| (st'.Buffer.getD 4 0)))) ∧
        lookupStream (processPacketTCP ss k seq payload).2.2 k = none)) ∧
    (∀ (b1 b2 b3 b4 b5 : Nat) (s1 s2 s3 : List Nat) (k : FlowKey) (seq0 : Nat),
      s1 ≠ [] → s2 ≠ [] → s3 ≠ [] →
      s1 ++ s2 ++ s3 = [0x16, 0x03, 0x03, 0x00, 0x05, b1, b2, b3, b4, b5] →
      (processPacketTCP [] k seq0 s1).2.1 = false ∧
      (processPacketTCP (processPacketTCP [] k seq0 s1).2.2 k
          ((seq0 + s1.length) % 2 ^ 32) s2).2.1 = false ∧
      (processPacketTCP
          (processPacketTCP (processPacketTCP [] k seq0 s1).2.2 k
            ((seq0 + s1.length) % 2 ^ 32) s2).2.2 k
          (((seq0 + s1.length) % 2 ^ 32 + s2.length) % 2 ^ 32) s3).1 =
        some [0x16, 0x03, 0x03, 0x00, 0x05, b1, b2, b3, b4, b5] ∧
      (processPacketTCP
          (processPacketTCP (processPacketTCP [] k seq0 s1).2.2 k
            ((seq0 + s1.length) % 2 ^ 32) s2).2.2 k
          (((seq0 + s1.length) % 2 ^ 32 + s2.length) % 2 ^ 32) s3).2.1 = true ∧
      lookupStream
        (processPacketTCP
          (processPacketTCP (processPacketTCP [] k seq0 s1).2.2 k
            ((seq0 + s1.length) % 2 ^ 32) s2).2.2 k
          (((seq0 + s1.length) % 2 ^ 32 + s2.length) % 2 ^ 32) s3).2.2 k = none) :=
  ⟨tlsCompletionAux, tlsScenarioAux⟩

/-- Witness for C1 at concrete inputs: a single 6-byte TLS record is
returned whole, and the 3-packet split `[0x16,3,3] / [0,5,9,8] /
[7,6,5]` completes on the third packet. -/
theorem c1_tls_record_completion_witness :
    (processPacketTCP [] ⟨"10.0.0.1", "8.8.4.4", "1111", "443", "TCP"⟩ 100
        [0x16, 0x03, 0x03, 0x00, 0x01, 0xab]).1 =
      some [0x16, 0x03, 0x03, 0x00, 0x01, 0xab] ∧
    (processPacketTCP
        (processPacketTCP (processPacketTCP [] FlowKey.empty 500 [0x16, 3, 3]).2.2
          FlowKey.empty ((500 + ([0x16, 3, 3] : List Nat).length) % 2 ^ 32) [0, 5, 9, 8]).2.2
        FlowKey.empty
        (((500 + ([0x16, 3, 3] : List Nat).length) % 2 ^ 32 +
          ([0, 5, 9, 8] : List Nat).length) % 2 ^ 32) [7, 6, 5]).1 =
      some [0x16, 3, 3, 0, 5, 9, 8, 7, 6, 5] := by
  constructor
  · have h := (c1_tls_record_completion.1 [] ⟨"10.0.0.1", "8.8.4.4", "1111", "443", "TCP"⟩
      100 [0x16, 0x03, 0x03, 0x00, 0x01, 0xab] (by decide)
      (updateStream ((lookupStream [] ⟨"10.0.0.1", "8.8.4.4", "1111", "443", "TCP"⟩).getD
        StreamBuffer.fresh) 100 [0x16, 0x03, 0x03, 0x00, 0x01, 0xab]) rfl
      (by decide)).2 (by decide)
    exact h.1.trans (by decide)
  · exact (c1_tls_record_completion.2 9 8 7 6 5 [0x16, 3, 3] [0, 5, 9, 8] [7, 6, 5]
      FlowKey.empty 500 (by decide) (by decide) (by decide) (by decide)).2.2.1

/-- C2 counterexample: a flow buffering the non-TLS payload
`[0x41, 0x42, 0x43]` (first byte not 0x16) is NOT reported complete on
the call that buffers it — `ready` is false and the bytes stay
buffered — contradicting the claim that any non-TLS buffer is complete
as soon as buffering starts, regardless of size. -/
theorem c2_nontls_small_buffer_counterexample :
    (processPacketTCP [] ⟨"10.0.0.1", "8.8.8.8", "1024", "80", "TCP"⟩ 0
        [0x41, 0x42, 0x43]).2.1 = false ∧
    lookupStream (processPacketTCP [] ⟨"10.0.0.1", "8.8.8.8", "1024", "80", "TCP"⟩ 0
        [0x41, 0x42, 0x43]).2.2 ⟨"10.0.0.1", "8.8.8.8", "1024", "80", "TCP"⟩ =
      some ⟨[0x41, 0x42, 0x43], 3 % 2 ^ 32, true⟩ ∧
    ¬ (0x41 : Nat) = 0x16 := by
  refine ⟨by decide, by decide, by decide⟩

/-- C2 (amended): a buffer whose first byte is not 0x16 is declared
complete (the whole current buffer is returned and the flow entry
removed) exactly when it holds at least 5 bytes; with fewer than 5
buffered bytes the packet is not ready and the buffer is kept. -/
theorem c2_nontls_completion_amended (ss : Streams) (k : FlowKey) (seq : Nat)
    (payload : List Nat) (hne : payload ≠ []) (st' : StreamBuffer)
    (hst : st' = updateStream ((lookupStream ss k).getD StreamBuffer.fresh) seq payload)
    (h0 : ¬ st'.Buffer.getD 0 0 = 0x16) :
    ((processPacketTCP ss k seq payload).2.1 = true ↔ 5 ≤ st'.Buffer.length) ∧
    (5 ≤ st'.Buffer.length →
      (processPacketTCP ss k seq payload).1 = some st'.Buffer ∧
      lookupStream (processPacketTCP ss k seq payload).2.2 k = none) ∧
    (st'.Buffer.length < 5 →
      (processPacketTCP ss k seq payload).1 = none ∧
      lookupStream (processPacketTCP ss k seq payload).2.2 k = some st') := by
  rw [processPacketTCP_eq ss k seq payload hne]
  dsimp only
  rw [← hst]
  rw [peek_nontls st'.Buffer h0]
  by_cases h5 : 5 ≤ st'.Buffer.length
  · rw [if_pos h5]
    simp [lookupStream_erase_self, h5]
  · rw [if_neg h5]
    simp [lookupStream_insert_self, h5]

/-- Witness for C2 (amended): a 5-byte non-TLS payload is returned
whole on the call that buffers it. -/
theorem c2_nontls_completion_amended_witness :
    (processPacketTCP [] ⟨"10.0.0.1", "8.8.8.8", "1024", "80", "TCP"⟩ 0
        [0x41, 0x42, 0x43, 0x44, 0x45]).1 =
      some [0x41, 0x42, 0x43, 0x44, 0x45] := by
  have h := ((c2_nontls_completion_amended []
      ⟨"10.0.0.1", "8.8.8.8", "1024", "80", "TCP"⟩ 0 [0x41, 0x42, 0x43, 0x44, 0x45]
      (by decide)
      (updateStream ((lookupStream [] ⟨"10.0.0.1", "8.8.8.8", "1024", "80", "TCP"⟩).getD
        StreamBuffer.fresh) 0 [0x41, 0x42, 0x43, 0x44, 0x45]) rfl
      (by decide)).2.1 (by decide)).1
  exact h.trans (by decide)

/-- C3: for a non-empty TCP payload arriving at an existing initialized
buffer: in-order within capacity appends; in-order past 65535 bytes
resets to the current payload; a forward gap resets the same way; a
retransmission (seq below expected) leaves the stream unchanged; and
`NextSeq` becomes `seq + len(payload)` (as `uint32`) on every mutating
path.  When the mutated buffer is not complete, the mutated stream is
exactly what stays in the flow map. -/
theorem c3_sequencing_policy (stream : StreamBuffer) (seq : Nat)
    (payload : List Nat) (hinit : stream.Initialized = true)
    (hne : payload ≠ []) :
    (seq = stream.NextSeq → stream.Buffer.length + payload.length ≤ 65535 →
      updateStream stream seq payload =
        ⟨stream.Buffer ++ payload, (seq + payload.length) % 2 ^ 32,
          stream.Initialized⟩) ∧
    (seq = stream.NextSeq → 65535 < stream.Buffer.length + payload.length →
      updateStream stream seq payload =
        ⟨payload, (seq + payload.length) % 2 ^ 32, stream.Initialized⟩) ∧
    (stream.NextSeq < seq →
      updateStream stream seq payload =
        ⟨payload, (seq + payload.length) % 2 ^ 32, stream.Initialized⟩) ∧
    (seq < stream.NextSeq → updateStream stream seq payload = stream) ∧
    (∀ (ss : Streams) (k : FlowKey), lookupStream ss k = some stream →
      (peekTLSRecord (updateStream stream seq payload).Buffer).1 = false →
      lookupStream (processPacketTCP ss k seq payload).2.2 k =
        some (updateStream stream seq payload)) := by
  refine ⟨?_, ?_, ?_, ?_, ?_⟩
  · intro hseq hcap
    unfold updateStream
    rw [if_neg (by simp [hinit]), if_pos hseq,
      if_pos (by simpa [MaxBufferSize] using hcap)]
  · intro hseq hcap
    unfold updateStream
    rw [if_neg (by simp [hinit]), if_pos hseq,
      if_neg (by simp [MaxBufferSize]; omega)]
  · intro hgap
    unfold updateStream
    rw [if_neg (by simp [hinit]), if_neg (by omega), if_pos hgap]
  · intro hretrans
    unfold updateStream
    rw [if_neg (by simp [hinit]), if_neg (by omega), if_neg (by omega)]
  · intro ss k hlook hpeek
    rw [processPacketTCP_eq ss k seq payload hne]
    dsimp only
    rw [hlook]
    dsimp only [Option.getD]
    rw [hpeek]
    simp [lookupStream_insert_self]

/-- Witness for C3: in-order append, forward-gap reset and ignored
retransmission at concrete inputs. -/
theorem c3_sequencing_policy_witness :
    updateStream ⟨[1, 2], 10, true⟩ 10 [3, 4] = ⟨[1, 2, 3, 4], 12 % 2 ^ 32, true⟩ ∧
    updateStream ⟨[1, 2], 10, true⟩ 50 [3] = ⟨[3], 51 % 2 ^ 32, true⟩ ∧
    updateStream ⟨[1, 2], 10, true⟩ 4 [3] = ⟨[1, 2], 10, true⟩ := by
  have h := c3_sequencing_policy ⟨[1, 2], 10, true⟩ 10 [3, 4] rfl (by decide)
  have hgap := c3_sequencing_policy ⟨[1, 2], 10, true⟩ 50 [3] rfl (by decide)
  have hre := c3_sequencing_policy ⟨[1, 2], 10, true⟩ 4 [3] rfl (by decide)
  refine ⟨(h.1 rfl (by decide)).trans (by decide),
    (hgap.2.2.1 (by decide)).trans (by decide),
    hre.2.2.2.1 (by decide)⟩

/-- C10: when a buffered TLS record completes, `ProcessPacket` returns
only the first `5 + L` bytes of the buffer and deletes the flow entry,
so bytes beyond the completed record are in neither the returned data
nor any remaining buffer for that flow. -/
theorem c10_excess_bytes_discarded (ss : Streams) (k : FlowKey) (seq : Nat)
    (payload : List Nat) (hne : payload ≠ []) (st' : StreamBuffer)
    (hst : st' = updateStream ((lookupStream ss k).getD StreamBuffer.fresh) seq payload)
    (h0 : st'.Buffer.getD 0 0 = 0x16)
    (hr : 5 + ((st'.Buffer.getD 3 0) <<< 8 ||| (st'.Buffer.getD 4 0)) ≤ st'.Buffer.length) :
    (processPacketTCP ss k seq payload).1 =
      some (st'.Buffer.take
        (5 + ((st'.Buffer.getD 3 0) <<< 8 ||| (st'.Buffer.getD 4 0)))) ∧
    (st'.Buffer.take (5 + ((st'.Buffer.getD 3 0) <<< 8 ||| (st'.Buffer.getD 4 0)))).length =
      5 + ((st'.Buffer.getD 3 0) <<< 8 ||| (st'.Buffer.getD 4 0)) ∧
    lookupStream (processPacketTCP ss k seq payload).2.2 k = none := by
  have h := (tlsCompletionAux ss k seq payload hne st' hst h0).2 hr
  exact ⟨h.1, by rw [List.length_take]; omega, h.2⟩

/-- Witness for C10: a buffer holding a complete 1-byte-body record
plus two extra bytes returns only the first 6 bytes and drops the
rest. -/
theorem c10_excess_bytes_discarded_witness :
    (processPacketTCP [] ⟨"10.0.0.2", "8.8.8.8", "1024", "443", "TCP"⟩ 0
        [0x16, 0x03, 0x03, 0x00, 0x01, 0xaa, 0xbb, 0xcc]).1 =
      some [0x16, 0x03, 0x03, 0x00, 0x01, 0xaa] ∧
    lookupStream (processPacketTCP [] ⟨"10.0.0.2", "8.8.8.8", "1024", "443", "TCP"⟩ 0
        [0x16, 0x03, 0x03, 0x00, 0x01, 0xaa, 0xbb, 0xcc]).2.2
      ⟨"10.0.0.2", "8.8.8.8", "1024", "443", "TCP"⟩ = none := by
  have h := c10_excess_bytes_discarded []
    ⟨"10.0.0.2", "8.8.8.8", "1024", "443", "TCP"⟩ 0
    [0x16, 0x03, 0x03, 0x00, 0x01, 0xaa, 0xbb, 0xcc] (by decide)
    (updateStream ((lookupStream [] ⟨"10.0.0.2", "8.8.8.8", "1024", "443", "TCP"⟩).getD
      StreamBuffer.fresh) 0 [0x16, 0x03, 0x03, 0x00, 0x01, 0xaa, 0xbb, 0xcc]) rfl
    (by decide) (by decide)
  exact ⟨h.1.trans (by decide), h.2.2⟩

/-! ## TLS detection lemmas (C9) -/

theorem isTLSHandshake_iff (p : List Nat) :
    isTLSHandshake p = true ↔
      (6 ≤ p.length ∧ p.getD 0 0 = 0x16 ∧
       0x0301 ≤ ((p.getD 1 0) <<< 8 ||| (p.getD 2 0)) ∧
       ((p.getD 1 0) <<< 8 ||| (p.getD 2 0)) ≤ 0x0304) := by
  unfold isTLSHandshake
  by_cases h6 : p.length < 6
  · rw [if_pos h6]
    simp
    omega
  · rw [if_neg h6]
    by_cases h0 : p.getD 0 0 = 0x16
    · rw [if_neg (not_not_intro h0)]
      dsimp only
      split
      · rename_i hv
        simp only [Bool.false_eq_true, false_iff]
        omega
      · rename_i hv
        simp only [true_iff]
        refine ⟨by omega, h0, by omega, by omega⟩
    · rw [if_pos h0]
      simp only [Bool.false_eq_true, false_iff]
      intro hcon
      exact h0 hcon.2.1

/-- C9 counterexample: the 5-byte payload `[0x16,0x03,0x01,0x00,0x00]`
has first byte 0x16 and version 0x0301 (in the accepted range), yet it
is not detected as TLS and `parseTLS` leaves the packet unmarked — the
claim's iff omits the minimum-length requirement of 6 bytes. -/
theorem c9_short_payload_counterexample :
    isTLSHandshake [0x16, 0x03, 0x01, 0x00, 0x00] = false ∧
    ([0x16, 0x03, 0x01, 0x00, 0x00] : List Nat).getD 0 0 = 0x16 ∧
    ((([0x16, 0x03, 0x01, 0x00, 0x00] : List Nat).getD 1 0) <<< 8 |||
      (([0x16, 0x03, 0x01, 0x00, 0x00] : List Nat).getD 2 0)) = 0x0301 ∧
    (parseTLS { PacketInfo.zero with
        Payload := [0x16, 0x03, 0x01, 0x00, 0x00] }).IsTLS = false := by
  refine ⟨by decide, by decide, by decide, by decide⟩

theorem parseTLS_of_not (info : PacketInfo)
    (ht : isTLSHandshake info.Payload = false) : parseTLS info = info := by
  unfold parseTLS
  rw [if_pos (by simp [ht])]

theorem parseTLS_pos (info : PacketInfo)
    (ht : isTLSHandshake info.Payload = true) :
    parseTLS info =
      if extractSNI info.Payload ≠ "" then
        { info with
            IsTLS := true
            TLSVersion := getTLSVersionString
              ((info.Payload.getD 1 0) <<< 8 ||| (info.Payload.getD 2 0))
            SNI := extractSNI info.Payload }
      else
        { info with
            IsTLS := true
            TLSVersion := getTLSVersionString
              ((info.Payload.getD 1 0) <<< 8 ||| (info.Payload.getD 2 0)) } := by
  unfold parseTLS
  rw [if_neg (not_not_intro ht)]
  dsimp only
  obtain ⟨hl, -, -, -⟩ := (isTLSHandshake_iff _).mp ht
  rw [if_pos (show 3 ≤ info.Payload.length by omega)]

/-- C9 (amended): a payload is marked as TLS iff it is at least 6 bytes
long, byte 0 is 0x16, and the big-endian version in bytes 1-2 lies in
0x0301-0x0304; on a match the version display label is set and SNI
extraction is attempted; on a non-match the packet is unchanged. -/
theorem c9_tls_detection_amended (info : PacketInfo)
    (hfalse : info.IsTLS = false) :
    ((parseTLS info).IsTLS = true ↔
      (6 ≤ info.Payload.length ∧ info.Payload.getD 0 0 = 0x16 ∧
       0x0301 ≤ ((info.Payload.getD 1 0) <<< 8 ||| (info.Payload.getD 2 0)) ∧
       ((info.Payload.getD 1 0) <<< 8 ||| (info.Payload.getD 2 0)) ≤ 0x0304)) ∧
    (isTLSHandshake info.Payload = true →
      (parseTLS info).TLSVersion =
        getTLSVersionString ((info.Payload.getD 1 0) <<< 8 ||| (info.Payload.getD 2 0)) ∧
      (parseTLS info).SNI =
        (if extractSNI info.Payload ≠ "" then extractSNI info.Payload else info.SNI)) ∧
    (getTLSVersionString 0x0301 = "TLS 1.0" ∧ getTLSVersionString 0x0302 = "TLS 1.1" ∧
     getTLSVersionString 0x0303 = "TLS 1.2" ∧ getTLSVersionString 0x0304 = "TLS 1.3") ∧
    (isTLSHandshake info.Payload = false → parseTLS info = info) := by
  refine ⟨?_, ?_, ⟨by decide, by decide, by decide, by decide⟩,
    fun ht => parseTLS_of_not info ht⟩
  · rw [← isTLSHandshake_iff]
    by_cases ht : isTLSHandshake info.Payload = true
    · have hm : (parseTLS info).IsTLS = true := by
        rw [parseTLS_pos info ht]
        split <;> rfl
      simp [hm, ht]
    · have hf : isTLSHandshake info.Payload = false := by simpa using ht
      rw [parseTLS_of_not info hf, hfalse, hf]
  · intro ht
    rw [parseTLS_pos info ht]
    by_cases hs : extractSNI info.Payload ≠ ""
    · rw [if_pos hs, if_pos hs]
      exact ⟨rfl, rfl⟩
    · rw [if_neg hs, if_neg hs]
      exact ⟨rfl, rfl⟩

/-- Witness for C9 (amended) on a concrete minimal record: detected as
TLS and labelled TLS 1.2. -/
theorem c9_tls_detection_amended_witness :
    (parseTLS { PacketInfo.zero with
        Payload := [0x16, 0x03, 0x03, 0x00, 0x02, 0x01, 0x00] }).IsTLS = true ∧
    (parseTLS { PacketInfo.zero with
        Payload := [0x16, 0x03, 0x03, 0x00, 0x02, 0x01, 0x00] }).TLSVersion =
      "TLS 1.2" := by
  have h := c9_tls_detection_amended
    { PacketInfo.zero with Payload := [0x16, 0x03, 0x03, 0x00, 0x02, 0x01, 0x00] }
    (by decide)
  refine ⟨(h.1).2 (by decide), ?_⟩
  have h2 := (h.2.1 (by decide)).1
  exact h2.trans (by decide)

/-! ## SNI totality (C5) -/

theorem isSome_ite (c : Prop) [Decidable c] (a b : Option String)
    (ha : c → a.isSome = true) (hb : ¬ c → b.isSome = true) :
    (if c then a else b).isSome = true := by
  split
  · exact ha ‹_›
  · exact hb ‹_›

theorem isSome_bind_getB (l : List Nat) (i : Nat) (f : Nat → Option String)
    (h : i < l.length) (hf : ∀ v, (f v).isSome = true) :
    ((getB l i).bind f).isSome = true := by
  have hv : getB l i = some (l.get ⟨i, h⟩) := List.get?_eq_get h
  rw [hv]
  exact hf _

theorem isSome_bind_sliceB (l : List Nat) (a b : Nat)
    (f : List Nat → Option String) (hab : a ≤ b) (hb : b ≤ l.length)
    (hf : ∀ v, (f v).isSome = true) :
    ((sliceB l a b).bind f).isSome = true := by
  rw [sliceB, if_pos ⟨hab, hb⟩]
  exact hf _

theorem parseSNIExtLoop_isSome (data : List Nat) :
    ∀ (fuel pos : Nat), data.length ≤ pos + fuel → 1 ≤ fuel →
    (parseSNIExtLoop data pos fuel).isSome = true := by
  intro fuel
  induction fuel with
  | zero => omega
  | succ n ih =>
      intro pos hfuel _
      simp only [parseSNIExtLoop]
      refine isSome_ite _ _ _ (fun hguard => ?_) (fun _ => by simp)
      refine isSome_bind_getB _ _ _ (by omega) fun nameType => ?_
      refine isSome_bind_getB _ _ _ (by omega) fun n0 => ?_
      refine isSome_bind_getB _ _ _ (by omega) fun n1 => ?_
      refine isSome_ite _ _ _ (fun _ => by simp) (fun hlen => ?_)
      refine isSome_ite _ _ _ (fun _ => ?_) (fun _ => ?_)
      · refine isSome_bind_sliceB _ _ _ _ (by omega) (by omega) fun seg => by simp
      · exact ih (pos + 3 + (n0 <<< 8 ||| n1)) (by omega) (by omega)

theorem parseSNIExtensionChecked_isSome (data : List Nat) :
    (parseSNIExtensionChecked data).isSome = true := by
  unfold parseSNIExtensionChecked
  refine isSome_ite _ _ _ (fun _ => by simp) (fun h2 => ?_)
  refine isSome_bind_getB _ _ _ (by omega) fun l0 => ?_
  refine isSome_bind_getB _ _ _ (by omega) fun l1 => ?_
  refine isSome_ite _ _ _ (fun _ => by simp) (fun hll => ?_)
  exact parseSNIExtLoop_isSome data (data.length + 1) 2 (by omega) (by omega)

theorem sniExtensionsLoop_isSome (payload : List Nat) (extensionsEnd : Nat)
    (hend : extensionsEnd ≤ payload.length) :
    ∀ (fuel pos : Nat), extensionsEnd ≤ pos + fuel → 1 ≤ fuel →
    (sniExtensionsLoop payload extensionsEnd pos fuel).isSome = true := by
  intro fuel
  induction fuel with
  | zero => omega
  | succ n ih =>
      intro pos hfuel _
      simp only [sniExtensionsLoop]
      refine isSome_ite _ _ _ (fun hguard => ?_) (fun _ => by simp)
      refine isSome_bind_getB _ _ _ (by omega) fun t0 => ?_
      refine isSome_bind_getB _ _ _ (by omega) fun t1 => ?_
      refine isSome_bind_getB _ _ _ (by omega) fun e0 => ?_
      refine isSome_bind_getB _ _ _ (by omega) fun e1 => ?_
      refine isSome_ite _ _ _ (fun _ => by simp) (fun hlen => ?_)
      refine isSome_ite _ _ _ (fun _ => ?_) (fun _ => ?_)
      · refine isSome_bind_sliceB _ _ _ _ (by omega) (by omega) fun body =>
          parseSNIExtensionChecked_isSome body
      · exact ih (pos + 4 + (e0 <<< 8 ||| e1)) (by omega) (by omega)

theorem extractSNIChecked_isSome (payload : List Nat) :
    (extractSNIChecked payload).isSome = true := by
  unfold extractSNIChecked
  refine isSome_ite _ _ _ (fun _ => by simp) (fun h6 => ?_)
  refine isSome_bind_getB _ _ _ (by omega) fun b0 => ?_
  refine isSome_ite _ _ _ (fun _ => by simp) (fun _ => ?_)
  refine isSome_bind_getB _ _ _ (by omega) fun b3 => ?_
  refine isSome_bind_getB _ _ _ (by omega) fun b4 => ?_
  refine isSome_ite _ _ _ (fun _ => by simp) (fun hrec => ?_)
  refine isSome_ite _ _ _ (fun _ => by simp) (fun h5 => ?_)
  refine isSome_bind_getB _ _ _ (by omega) fun ht => ?_
  refine isSome_ite _ _ _ (fun _ => by simp) (fun _ => ?_)
  refine isSome_ite _ _ _ (fun _ => by simp) (fun h9 => ?_)
  refine isSome_ite _ _ _ (fun _ => by simp) (fun h11 => ?_)
  refine isSome_ite _ _ _ (fun _ => by simp) (fun h43 => ?_)
  refine isSome_ite _ _ _ (fun _ => by simp) (fun h43b => ?_)
  refine isSome_bind_getB _ _ _ (by omega) fun sidLen => ?_
  refine isSome_ite _ _ _ (fun _ => by simp) (fun hsid => ?_)
  refine isSome_ite _ _ _ (fun _ => by simp) (fun hp1 => ?_)
  refine isSome_bind_getB _ _ _ (by omega) fun c0 => ?_
  refine isSome_bind_getB _ _ _ (by omega) fun c1 => ?_
  refine isSome_ite _ _ _ (fun _ => by simp) (fun hp2 => ?_)
  refine isSome_ite _ _ _ (fun _ => by simp) (fun hp3 => ?_)
  refine isSome_bind_getB _ _ _ (by omega) fun compLen => ?_
  refine isSome_ite _ _ _ (fun _ => by simp) (fun hp4 => ?_)
  refine isSome_ite _ _ _ (fun _ => by simp) (fun hp5 => ?_)
  refine isSome_bind_getB _ _ _ (by omega) fun x0 => ?_
  refine isSome_bind_getB _ _ _ (by omega) fun x1 => ?_
  refine isSome_ite _ _ _ (fun _ => by simp) (fun hp6 => ?_)
  exact sniExtensionsLoop_isSome payload _ (by omega) (payload.length + 1) _
    (by omega) (by omega)

/-- C5: SNI extraction is total and fails closed: for every byte string
the checked walk returns a value (never the panic marker `none`); the
well-formed ClientHello carrying host_name "example.com" yields exactly
"example.com"; the same ClientHello with its extensions block truncated
one byte short yields the empty SNI; and in a server-name list the
first entry of name-type 0 is the one returned. -/
theorem c5_sni_extraction_total :
    (∀ payload : List Nat, (extractSNIChecked payload).isSome = true) ∧
    extractSNIChecked goodClientHello = some "example.com" ∧
    extractSNI goodClientHello = "example.com" ∧
    extractSNIChecked truncatedClientHello = some "" ∧
    extractSNI truncatedClientHello = "" ∧
    parseSNIExtensionChecked twoEntrySNIExtension = some "abc" := by
  refine ⟨extractSNIChecked_isSome, by decide, by decide, by decide, by decide,
    by decide⟩

/-! ## Parser pipeline field lemmas (C4) -/

theorem dnsFields_parseNetworkLayer (pkt : GoPacket) (i : PacketInfo) :
    dnsFields (parseNetworkLayer pkt i) = dnsFields i := by
  unfold parseNetworkLayer
  split <;> rfl

theorem dnsFields_parseTransportLayer (pkt : GoPacket) (i : PacketInfo) :
    dnsFields (parseTransportLayer pkt i) = dnsFields i := by
  unfold parseTransportLayer
  split
  · rfl
  · split <;> rfl

theorem dnsFields_parseTLS (i : PacketInfo) :
    dnsFields (parseTLS i) = dnsFields i := by
  by_cases ht : isTLSHandshake i.Payload = true
  · rw [parseTLS_pos i ht]
    split <;> rfl
  · rw [parseTLS_of_not i (by simpa using ht)]

theorem dnsFields_withPayload (i : PacketInfo) :
    dnsFields (parseApplicationLayerWithPayload i) = dnsFields i := by
  unfold parseApplicationLayerWithPayload
  split
  · exact dnsFields_parseTLS i
  · rfl

theorem dnsFields_determineDirection (i : PacketInfo) :
    dnsFields (determineDirection i) = dnsFields i := by
  unfold determineDirection
  dsimp only
  split
  · rfl
  · split
    · rfl
    · split <;> rfl

theorem parseTLS_transport_fields (i : PacketInfo) :
    (parseTLS i).Protocol = i.Protocol ∧ (parseTLS i).SrcPort = i.SrcPort ∧
    (parseTLS i).DstPort = i.DstPort := by
  by_cases ht : isTLSHandshake i.Payload = true
  · rw [parseTLS_pos i ht]
    split <;> exact ⟨rfl, rfl, rfl⟩
  · rw [parseTLS_of_not i (by simpa using ht)]
    exact ⟨rfl, rfl, rfl⟩

theorem parseNetworkLayer_transport_fields (pkt : GoPacket) (i : PacketInfo) :
    (parseNetworkLayer pkt i).Protocol = i.Protocol ∧
    (parseNetworkLayer pkt i).SrcPort = i.SrcPort ∧
    (parseNetworkLayer pkt i).DstPort = i.DstPort ∧
    (parseNetworkLayer pkt i).Payload = i.Payload := by
  unfold parseNetworkLayer
  split <;> exact ⟨rfl, rfl, rfl, rfl⟩

theorem dnsFoldl_eq (answers : List DNSAnswer) (acc : List String) :
    answers.foldl (fun acc a =>
      if a.type = 1 then
        match a.ip with
        | some s => acc ++ [s]
        | none => acc
      else if a.type = 28 then
        match a.ip with
        | some s => acc ++ [s]
        | none => acc
      else acc) acc = acc ++ dnsAnswerIPsSpec answers := by
  induction answers generalizing acc with
  | nil => simp [dnsAnswerIPsSpec]
  | cons a rest ih =>
      rw [List.foldl_cons, ih]
      unfold dnsAnswerIPsSpec
      rw [List.filterMap_cons]
      by_cases h1 : a.type = 1
      · rw [if_pos (Or.inl h1)]
        all_goals cases hip : a.ip <;> simp [dnsAnswerIPsSpec, h1]
      · by_cases h28 : a.type = 28
        · rw [if_pos (Or.inr h28)]
          all_goals cases hip : a.ip <;> simp [dnsAnswerIPsSpec, h1, h28]
        · rw [if_neg (by tauto)]
          simp [dnsAnswerIPsSpec, h1, h28]

theorem dnsFields_parseDNS (pkt : GoPacket) (i : PacketInfo) (d : DNSMsg)
    (hd : pkt.dns = some d) (hq : i.DNSQueryName = "")
    (hip : i.DNSResponseIPs = []) :
    dnsFields (parseDNS pkt i) =
      (true, (if d.QR = true then d.Questions.headD "" else ""),
        (if d.QR = true then dnsAnswerIPsSpec d.Answers else [])) := by
  unfold parseDNS
  rw [hd]
  dsimp only
  by_cases hQR : d.QR = true
  · rw [if_neg (not_not_intro hQR), if_pos hQR, if_pos hQR]
    by_cases hql : 0 < d.Questions.length
    · rw [if_pos hql]
      dsimp only [dnsFields]
      simp only [Prod.mk.injEq]
      refine ⟨trivial, ?_, ?_⟩
      · cases d.Questions <;> rfl
      · exact (dnsFoldl_eq d.Answers []).trans (by simp)
    · rw [if_neg hql]
      have hnil : d.Questions = [] := by
        cases hq2 : d.Questions
        · rfl
        · rw [hq2] at hql
          simp at hql
      dsimp only [dnsFields]
      simp only [Prod.mk.injEq]
      refine ⟨trivial, by rw [hnil]; simpa using hq, ?_⟩
      exact (dnsFoldl_eq d.Answers []).trans (by simp)
  · rw [if_pos hQR, if_neg hQR, if_neg hQR]
    dsimp only [dnsFields]
    simp only [Prod.mk.injEq]
    exact ⟨trivial, hq, hip⟩

theorem parseTransportLayer_udp (pkt : GoPacket) (i : PacketInfo)
    (hT : pkt.hasTCP = false) (hU : pkt.hasUDP = true) :
    parseTransportLayer pkt i =
      { i with
          Protocol := "UDP"
          SrcPort := pkt.udpSrcPort
          DstPort := pkt.udpDstPort
          Payload := pkt.udpPayload } := by
  unfold parseTransportLayer
  rw [if_neg (by simp [hT]), if_pos hU]

theorem parseTransportLayer_protocol_tcp (pkt : GoPacket) (i : PacketInfo)
    (hT : pkt.hasTCP = true) : (parseTransportLayer pkt i).Protocol = "TCP" := by
  unfold parseTransportLayer
  rw [if_pos hT]

theorem parseTransportLayer_protocol_none (pkt : GoPacket) (i : PacketInfo)
    (hT : pkt.hasTCP = false) (hU : pkt.hasUDP = false) :
    parseTransportLayer pkt i = i := by
  unfold parseTransportLayer
  rw [if_neg (by simp [hT]), if_neg (by simp [hU])]

theorem dnsFields_parseApplicationLayer_skip (pkt : GoPacket) (i : PacketInfo)
    (hcond : ¬ (i.Protocol = "UDP" ∧
      (i.SrcPort = "53(domain)" ∨ i.DstPort = "53(domain)"))) :
    dnsFields (parseApplicationLayer pkt i) = dnsFields i := by
  unfold parseApplicationLayer
  have hj : ∀ j : PacketInfo, dnsFields j = dnsFields i → j.Protocol = i.Protocol →
      j.SrcPort = i.SrcPort → j.DstPort = i.DstPort →
      dnsFields (if 0 < j.Payload.length then
        (if (parseTLS j).Protocol = "UDP" ∧
            ((parseTLS j).SrcPort = "53(domain)" ∨ (parseTLS j).DstPort = "53(domain)") then
          parseDNS pkt (parseTLS j)
        else parseTLS j) else j) = dnsFields i := by
    intro j hdf hp hsp hdp
    split
    · rw [if_neg]
      · rw [dnsFields_parseTLS, hdf]
      · obtain ⟨hp2, hsp2, hdp2⟩ := parseTLS_transport_fields j
        rw [hp2, hsp2, hdp2, hp, hsp, hdp]
        exact hcond
    · exact hdf
  dsimp only
  split
  · exact hj _ rfl rfl rfl rfl
  · exact hj i rfl rfl rfl rfl

theorem parse_no_dns_aux (ss : Streams) (pkt : GoPacket) (info : PacketInfo)
    (hsome : (Parse ss pkt).1 = some info)
    (hnot : ¬ (pkt.hasTCP = false ∧ pkt.hasUDP = true ∧
      (pkt.udpSrcPort = "53(domain)" ∨ pkt.udpDstPort = "53(domain)"))) :
    info.IsDNS = false ∧ info.DNSQueryName = "" ∧ info.DNSResponseIPs = [] := by
  unfold Parse at hsome
  by_cases hready : (ProcessPacket ss pkt).2.1 = true
  · rw [if_neg (not_not_intro hready)] at hsome
    dsimp only at hsome
    replace hsome := Option.some.inj hsome
    set info0 : PacketInfo :=
      { PacketInfo.zero with Timestamp := pkt.timestamp, Length := pkt.length } with hinfo0
    set i2 := parseTransportLayer pkt (parseNetworkLayer pkt info0) with hi2
    have hdf2 : dnsFields i2 = (false, "", []) := by
      rw [hi2, dnsFields_parseTransportLayer, dnsFields_parseNetworkLayer]
      rfl
    have hcond : ¬ (i2.Protocol = "UDP" ∧
        (i2.SrcPort = "53(domain)" ∨ i2.DstPort = "53(domain)")) := by
      by_cases hT : pkt.hasTCP = true
      · rw [hi2, parseTransportLayer_protocol_tcp pkt _ hT]
        simp
      · have hT2 : pkt.hasTCP = false := by simpa using hT
        by_cases hU : pkt.hasUDP = true
        · rw [hi2, parseTransportLayer_udp pkt _ hT2 hU]
          intro hcon
          exact hnot ⟨hT2, hU, hcon.2⟩
        · rw [hi2, parseTransportLayer_protocol_none pkt _ hT2 (by simpa using hU)]
          obtain ⟨hp, -, -, -⟩ := parseNetworkLayer_transport_fields pkt info0
          rw [hp]
          intro hcon
          have hzero : info0.Protocol = "" := by
            rw [hinfo0]
            rfl
          rw [hzero] at hcon
          exact absurd hcon.1 (by decide)
    have key : dnsFields info = (false, "", []) := by
      rw [← hsome, dnsFields_determineDirection]
      rcases hre : (ProcessPacket ss pkt).1 with _ | rp
      · dsimp only
        rw [dnsFields_parseApplicationLayer_skip pkt _ hcond]
        exact hdf2
      · dsimp only
        by_cases hrp : rp ≠ []
        · rw [if_pos hrp, dnsFields_withPayload]
          exact hdf2
        · rw [if_neg hrp, dnsFields_parseApplicationLayer_skip pkt _ hcond]
          exact hdf2
    simpa [dnsFields, Prod.ext_iff] using key
  · rw [if_pos (by simpa using hready)] at hsome
    simp at hsome

theorem dnsFields_parseApplicationLayer_dns (pkt : GoPacket) (d : DNSMsg)
    (i : PacketInfo) (hpl : i.Payload ≠ []) (hproto : i.Protocol = "UDP")
    (h53 : i.SrcPort = "53(domain)" ∨ i.DstPort = "53(domain)")
    (hd : pkt.dns = some d) (hq : i.DNSQueryName = "")
    (hip : i.DNSResponseIPs = []) :
    dnsFields (parseApplicationLayer pkt i) =
      (true, (if d.QR = true then d.Questions.headD "" else ""),
        (if d.QR = true then dnsAnswerIPsSpec d.Answers else [])) := by
  unfold parseApplicationLayer
  have hj : ∀ j : PacketInfo, j.Payload = i.Payload → j.Protocol = i.Protocol →
      j.SrcPort = i.SrcPort → j.DstPort = i.DstPort →
      j.DNSQueryName = i.DNSQueryName → j.DNSResponseIPs = i.DNSResponseIPs →
      dnsFields (if 0 < j.Payload.length then
        (if (parseTLS j).Protocol = "UDP" ∧
            ((parseTLS j).SrcPort = "53(domain)" ∨ (parseTLS j).DstPort = "53(domain)") then
          parseDNS pkt (parseTLS j)
        else parseTLS j) else j) =
      (true, (if d.QR = true then d.Questions.headD "" else ""),
        (if d.QR = true then dnsAnswerIPsSpec d.Answers else [])) := by
    intro j hpay hp hsp hdp hjq hjip
    rw [if_pos (by rw [hpay]; exact List.length_pos.mpr hpl)]
    obtain ⟨hp2, hsp2, hdp2⟩ := parseTLS_transport_fields j
    rw [if_pos (by rw [hp2, hsp2, hdp2, hp, hsp, hdp]; exact ⟨hproto, h53⟩)]
    have hkq : (parseTLS j).DNSQueryName = "" := by
      have h := congrArg (fun t : Bool × String × List String => t.2.1)
        (dnsFields_parseTLS j)
      simp only [dnsFields] at h
      rw [h, hjq, hq]
    have hkip : (parseTLS j).DNSResponseIPs = [] := by
      have h := congrArg (fun t : Bool × String × List String => t.2.2)
        (dnsFields_parseTLS j)
      simp only [dnsFields] at h
      rw [h, hjip, hip]
    exact dnsFields_parseDNS pkt (parseTLS j) d hd hkq hkip
  dsimp only
  split
  · exact hj _ rfl rfl rfl rfl rfl rfl
  · exact hj i rfl rfl rfl rfl rfl rfl

theorem parse_udp53_dns_aux (ss : Streams) (pkt : GoPacket) (d : DNSMsg)
    (hT : pkt.hasTCP = false) (hU : pkt.hasUDP = true)
    (hA : pkt.appLayerPresent = true) (hap : pkt.appPayload = [])
    (hd : pkt.dns = some d) (hpl : pkt.udpPayload ≠ [])
    (h53 : pkt.udpSrcPort = "53(domain)" ∨ pkt.udpDstPort = "53(domain)") :
    ((Parse ss pkt).1.map dnsFields) =
      some (true, (if d.QR = true then d.Questions.headD "" else ""),
        (if d.QR = true then dnsAnswerIPsSpec d.Answers else [])) := by
  have hpp : ProcessPacket ss pkt = (some pkt.appPayload, true, FlowKey.empty, ss) := by
    unfold ProcessPacket
    rw [if_pos (show ¬ pkt.hasTCP = true by simp [hT]), if_pos hA]
  unfold Parse
  rw [hpp]
  dsimp only
  rw [if_neg (show ¬ ¬ (true = true) from not_not_intro rfl)]
  dsimp only
  rw [hap, if_neg (show ¬ (([] : List Nat) ≠ []) from not_not_intro rfl)]
  set info0 : PacketInfo :=
    { PacketInfo.zero with Timestamp := pkt.timestamp, Length := pkt.length } with hinfo0
  set i1 := parseNetworkLayer pkt info0 with hi1
  have hup := parseTransportLayer_udp pkt i1 hT hU
  have hq1 : i1.DNSQueryName = "" := by
    have h := congrArg (fun t : Bool × String × List String => t.2.1)
      (dnsFields_parseNetworkLayer pkt info0)
    simp only [dnsFields] at h
    rw [hi1, h]
    rfl
  have hip1 : i1.DNSResponseIPs = [] := by
    have h := congrArg (fun t : Bool × String × List String => t.2.2)
      (dnsFields_parseNetworkLayer pkt info0)
    simp only [dnsFields] at h
    rw [hi1, h]
    rfl
  have hmain := dnsFields_parseApplicationLayer_dns pkt d (parseTransportLayer pkt i1)
    (by rw [hup]; exact hpl)
    (by rw [hup])
    (by rw [hup]; exact h53)
    hd
    (by rw [hup]; exact hq1)
    (by rw [hup]; exact hip1)
  have hdir := dnsFields_determineDirection
    (parseApplicationLayer pkt (parseTransportLayer pkt i1))
  show some (dnsFields (determineDirection
    (parseApplicationLayer pkt (parseTransportLayer pkt i1)))) = _
  rw [hdir, hmain]

/-- C4: DNS parsing is gated on UDP port 53 — any packet that is not
UDP with a port rendered "53(domain)" comes out of `Parse` with no DNS
fields set; and for a UDP port-53 packet whose decoded DNS layer is the
application layer (gopacket: `DNS.Payload()` is nil, so the non-TCP
pass-through hands back an empty reassembled payload), a non-response
sets only `IsDNS`, while a response yields the first question as the
query name and the IP literal of every A/AAAA answer, in order. -/
theorem c4_dns_gating :
    (∀ (ss : Streams) (pkt : GoPacket) (info : PacketInfo),
      (Parse ss pkt).1 = some info →
      ¬ (pkt.hasTCP = false ∧ pkt.hasUDP = true ∧
        (pkt.udpSrcPort = "53(domain)" ∨ pkt.udpDstPort = "53(domain)")) →
      info.IsDNS = false ∧ info.DNSQueryName = "" ∧ info.DNSResponseIPs = []) ∧
    (∀ (ss : Streams) (pkt : GoPacket) (d : DNSMsg),
      pkt.hasTCP = false → pkt.hasUDP = true → pkt.appLayerPresent = true →
      pkt.appPayload = [] → pkt.dns = some d → pkt.udpPayload ≠ [] →
      (pkt.udpSrcPort = "53(domain)" ∨ pkt.udpDstPort = "53(domain)") →
      ((Parse ss pkt).1.map dnsFields) =
        some (true, (if d.QR = true then d.Questions.headD "" else ""),
          (if d.QR = true then dnsAnswerIPsSpec d.Answers else []))) :=
  ⟨parse_no_dns_aux, parse_udp53_dns_aux⟩

/-- Witness for C4: the concrete DNS response yields the query name and
both A/AAAA IPs; the concrete TCP packet yields no DNS fields. -/
theorem c4_dns_gating_witness :
    ((Parse [] udpDNSPacket).1.map dnsFields) =
      some (true, "bad.example", ["1.2.3.4", "2001:db8::1"]) ∧
    ((Parse [] tcpDataPacket).1.map (fun i => i.IsDNS)) = some false := by
  constructor
  · have h := c4_dns_gating.2 [] udpDNSPacket
      ⟨true, ["bad.example"],
        [⟨1, some "1.2.3.4"⟩, ⟨28, some "2001:db8::1"⟩, ⟨5, some "cname"⟩,
         ⟨1, none⟩]⟩
      rfl rfl rfl rfl rfl (by decide) (Or.inl rfl)
    exact h.trans (by decide)
  · rcases hsome : (Parse [] tcpDataPacket).1 with _ | info
    · exact absurd hsome (by decide)
    · have h := (c4_dns_gating.1 [] tcpDataPacket info hsome (by decide)).1
      simp [h]

/-! ## isLocalIP on canonical dotted quads (C8) -/

theorem prefOf_append_of_le (p : List Char) :
    ∀ (s t : List Char), p.length ≤ s.length →
    List.isPrefixOf p (s ++ t) = List.isPrefixOf p s := by
  induction p with
  | nil =>
      intro s t _
      cases s <;> cases t <;> rfl
  | cons a as ih =>
      intro s t hlen
      cases s with
      | nil => simp at hlen
      | cons b bs =>
          rw [List.cons_append]
          simp only [List.isPrefixOf]
          rw [ih bs t (by simpa using hlen)]

theorem prefOf_append_of_not (p : List Char) :
    ∀ (s t : List Char), s.length ≤ p.length →
    List.isPrefixOf s p = false → List.isPrefixOf p (s ++ t) = false := by
  induction p with
  | nil =>
      intro s t hlen hf
      cases s
      · simp [List.isPrefixOf] at hf
      · simp at hlen
  | cons a as ih =>
      intro s t hlen hf
      cases s with
      | nil => simp [List.isPrefixOf] at hf
      | cons b bs =>
          rw [List.cons_append]
          simp only [List.isPrefixOf]
          simp only [List.isPrefixOf, Bool.and_eq_false_iff] at hf
          rcases hf with hf | hf
          · rw [BEq.comm] at hf
            simp [hf]
          · rw [ih bs t (by simpa using hlen) hf]
            simp

theorem prefOf_append_cancel (s : List Char) (p t : List Char) :
    List.isPrefixOf (s ++ p) (s ++ t) = List.isPrefixOf p t := by
  induction s with
  | nil => rfl
  | cons a as ih =>
      rw [List.cons_append, List.cons_append]
      simp only [List.isPrefixOf]
      rw [ih]
      simp

theorem prefDigitsDot (pat : List Char) (n : Nat)
    (H : ∀ v : Fin 256,
      (pat.length ≤ (natDigits v.val ++ ['.']).length ∧
        List.isPrefixOf pat (natDigits v.val ++ ['.']) = decide (v.val = n)) ∨
      ((natDigits v.val ++ ['.']).length ≤ pat.length ∧
        List.isPrefixOf (natDigits v.val ++ ['.']) pat = false ∧
        ¬ v.val = n)) :
    ∀ (a : Nat), a < 256 → ∀ rest : List Char,
      List.isPrefixOf pat (natDigits a ++ '.' :: rest) = decide (a = n) := by
  intro a ha rest
  have hs : natDigits a ++ '.' :: rest = (natDigits a ++ ['.']) ++ rest := by simp
  rw [hs]
  rcases H ⟨a, ha⟩ with ⟨hl, he⟩ | ⟨hl, hf, hne⟩
  · rw [prefOf_append_of_le pat _ rest hl, he]
  · rw [prefOf_append_of_not pat _ rest hl hf]
    exact (decide_eq_false hne).symm

theorem pref10 : ∀ (a : Nat), a < 256 → ∀ rest : List Char,
    List.isPrefixOf "10.".toList (natDigits a ++ '.' :: rest) = decide (a = 10) :=
  prefDigitsDot "10.".toList 10 (by decide)

theorem pref127 : ∀ (a : Nat), a < 256 → ∀ rest : List Char,
    List.isPrefixOf "127.".toList (natDigits a ++ '.' :: rest) = decide (a = 127) :=
  prefDigitsDot "127.".toList 127 (by decide)

theorem pref172 : ∀ (a : Nat), a < 256 → ∀ rest : List Char,
    List.isPrefixOf "172.".toList (natDigits a ++ '.' :: rest) = decide (a = 172) :=
  prefDigitsDot "172.".toList 172 (by decide)

theorem pref168 : ∀ (a : Nat), a < 256 → ∀ rest : List Char,
    List.isPrefixOf "168.".toList (natDigits a ++ '.' :: rest) = decide (a = 168) :=
  prefDigitsDot "168.".toList 168 (by decide)

theorem pref254 : ∀ (a : Nat), a < 256 → ∀ rest : List Char,
    List.isPrefixOf "254.".toList (natDigits a ++ '.' :: rest) = decide (a = 254) :=
  prefDigitsDot "254.".toList 254 (by decide)

theorem pref192168 : ∀ (a b : Nat), a < 256 → b < 256 → ∀ rest : List Char,
    List.isPrefixOf "192.168.".toList
      (natDigits a ++ '.' :: (natDigits b ++ '.' :: rest)) =
    decide (a = 192 ∧ b = 168) := by
  intro a b ha hb rest
  by_cases h192 : a = 192
  · subst h192
    have hd : (natDigits 192 ++ '.' :: (natDigits b ++ '.' :: rest)) =
        ("192.".toList ++ (natDigits b ++ '.' :: rest)) := by
      have h3 : natDigits 192 = ['1', '9', '2'] := by decide
      rw [h3]
      rfl
    rw [hd, show ("192.168.".toList : List Char) = "192.".toList ++ "168.".toList
      from rfl, prefOf_append_cancel, pref168 b hb rest, decide_eq_decide]
    simp
  · have hs : natDigits a ++ '.' :: (natDigits b ++ '.' :: rest) =
        (natDigits a ++ ['.']) ++ (natDigits b ++ '.' :: rest) := by simp
    rw [hs]
    have hfact : ∀ v : Fin 256, ¬ v.val = 192 →
        ((natDigits v.val ++ ['.']).length ≤ ("192.168.".toList : List Char).length ∧
         List.isPrefixOf (natDigits v.val ++ ['.']) "192.168.".toList = false) := by
      decide
    obtain ⟨hl, hf⟩ := hfact ⟨a, ha⟩ h192
    rw [prefOf_append_of_not _ _ _ hl hf]
    symm
    simp [h192]

theorem pref169254 : ∀ (a b : Nat), a < 256 → b < 256 → ∀ rest : List Char,
    List.isPrefixOf "169.254.".toList
      (natDigits a ++ '.' :: (natDigits b ++ '.' :: rest)) =
    decide (a = 169 ∧ b = 254) := by
  intro a b ha hb rest
  by_cases h169 : a = 169
  · subst h169
    have hd : (natDigits 169 ++ '.' :: (natDigits b ++ '.' :: rest)) =
        ("169.".toList ++ (natDigits b ++ '.' :: rest)) := by
      have h3 : natDigits 169 = ['1', '6', '9'] := by decide
      rw [h3]
      rfl
    rw [hd, show ("169.254.".toList : List Char) = "169.".toList ++ "254.".toList
      from rfl, prefOf_append_cancel, pref254 b hb rest, decide_eq_decide]
    simp
  · have hs : natDigits a ++ '.' :: (natDigits b ++ '.' :: rest) =
        (natDigits a ++ ['.']) ++ (natDigits b ++ '.' :: rest) := by simp
    rw [hs]
    have hfact : ∀ v : Fin 256, ¬ v.val = 169 →
        ((natDigits v.val ++ ['.']).length ≤ ("169.254.".toList : List Char).length ∧
         List.isPrefixOf (natDigits v.val ++ ['.']) "169.254.".toList = false) := by
      decide
    obtain ⟨hl, hf⟩ := hfact ⟨a, ha⟩ h169
    rw [prefOf_append_of_not _ _ _ hl hf]
    symm
    simp [h169]

theorem natDigits_no_dot : ∀ v : Fin 256, ∀ x ∈ natDigits v.val, ¬ (x == '.') = true := by
  decide

theorem splitOn_digits (a b c d : Nat) (ha : a < 256) (hb : b < 256)
    (hc : c < 256) (hd : d < 256) :
    (natDigits a ++ '.' :: (natDigits b ++ '.' :: (natDigits c ++ '.' :: natDigits d))).splitOn
      '.' = [natDigits a, natDigits b, natDigits c, natDigits d] := by
  have hA : ∀ x ∈ natDigits a, ¬ (x == '.') = true := natDigits_no_dot ⟨a, ha⟩
  have hB : ∀ x ∈ natDigits b, ¬ (x == '.') = true := natDigits_no_dot ⟨b, hb⟩
  have hC : ∀ x ∈ natDigits c, ¬ (x == '.') = true := natDigits_no_dot ⟨c, hc⟩
  have hD : ∀ x ∈ natDigits d, ¬ (x == '.') = true := natDigits_no_dot ⟨d, hd⟩
  show List.splitOnP (· == '.') _ = _
  rw [List.splitOnP_first _ _ hA '.' (by simp) _,
    List.splitOnP_first _ _ hB '.' (by simp) _,
    List.splitOnP_first _ _ hC '.' (by simp) _,
    List.splitOnP_eq_single _ _ hD]

theorem decimalVal_natDigits : ∀ v : Fin 256, decimalVal (natDigits v.val) = v.val := by
  decide

theorem isLocalIP_render (a b c d : Nat) (ha : a < 256) (hb : b < 256)
    (hc : c < 256) (hd : d < 256) :
    isLocalIP (ipv4Render a b c d) = decide (inLocalRanges a b) := by
  unfold isLocalIP
  dsimp only
  have hcs : (ipv4Render a b c d).toList =
      natDigits a ++ '.' :: (natDigits b ++ '.' :: (natDigits c ++ '.' :: natDigits d)) := rfl
  rw [hcs]
  rw [pref10 a ha _, pref192168 a b ha hb _, pref127 a ha _,
    pref169254 a b ha hb _, pref172 a ha _]
  rw [splitOn_digits a b c d ha hb hc hd]
  have hgetb : ([natDigits a, natDigits b, natDigits c, natDigits d].getD 1 []) =
      natDigits b := rfl
  rw [hgetb]
  have hdec : decimalVal (natDigits b) = b := decimalVal_natDigits ⟨b, hb⟩
  rw [hdec]
  split_ifs with h1 h2 h3
  · simp only [Bool.or_eq_true, decide_eq_true_eq] at h1
    symm
    rw [decide_eq_true_eq]
    unfold inLocalRanges
    omega
  · simp only [decide_eq_true_eq] at h2
    rw [decide_eq_decide]
    simp only [Bool.or_eq_true, decide_eq_true_eq, not_or] at h1
    unfold inLocalRanges
    omega
  · simp at h3
  · simp only [Bool.or_eq_true, decide_eq_true_eq, not_or] at h1
    simp only [decide_eq_true_eq] at h2
    symm
    rw [decide_eq_false_iff_not]
    unfold inLocalRanges
    omega

/-- C8: with "local" meaning membership in 10.0.0.0/8, 172.16.0.0/12,
192.168.0.0/16, 127.0.0.0/8 or 169.254.0.0/16 (for canonically rendered
IPv4 addresses): local-to-remote is send with remote = destination,
remote-to-local is recv with remote = source, remote-to-remote is send
with remote = destination, and local-to-local is local with remote =
destination. -/
theorem c8_direction_classification (info : PacketInfo)
    (sa sb sc sd da db dc dd : Nat)
    (hsa : sa < 256) (hsb : sb < 256) (hsc : sc < 256) (hsd : sd < 256)
    (hda : da < 256) (hdb : db < 256) (hdc : dc < 256) (hdd : dd < 256)
    (hsrc : info.SrcIP = ipv4Render sa sb sc sd)
    (hdst : info.DstIP = ipv4Render da db dc dd) :
    ((inLocalRanges sa sb ∧ ¬ inLocalRanges da db) →
      (determineDirection info).Direction = "send" ∧
      (determineDirection info).RemoteIP = info.DstIP) ∧
    ((¬ inLocalRanges sa sb ∧ inLocalRanges da db) →
      (determineDirection info).Direction = "recv" ∧
      (determineDirection info).RemoteIP = info.SrcIP) ∧
    ((¬ inLocalRanges sa sb ∧ ¬ inLocalRanges da db) →
      (determineDirection info).Direction = "send" ∧
      (determineDirection info).RemoteIP = info.DstIP) ∧
    ((inLocalRanges sa sb ∧ inLocalRanges da db) →
      (determineDirection info).Direction = "local" ∧
      (determineDirection info).RemoteIP = info.DstIP) := by
  unfold determineDirection
  dsimp only
  rw [hsrc, hdst, isLocalIP_render sa sb sc sd hsa hsb hsc hsd,
    isLocalIP_render da db dc dd hda hdb hdc hdd]
  refine ⟨?_, ?_, ?_, ?_⟩
  · rintro ⟨hs, hd2⟩
    rw [if_pos (by simp [hs, hd2])]
    exact ⟨rfl, rfl⟩
  · rintro ⟨hs, hd2⟩
    rw [if_neg (by simp [hs]), if_pos (by simp [hs, hd2])]
    exact ⟨rfl, rfl⟩
  · rintro ⟨hs, hd2⟩
    rw [if_neg (by simp [hs]), if_neg (by simp [hd2]),
      if_pos (by simp [hs, hd2])]
    exact ⟨rfl, rfl⟩
  · rintro ⟨hs, hd2⟩
    rw [if_neg (by simp [hd2]), if_neg (by simp [hs]),
      if_neg (by simp [hs])]
    exact ⟨rfl, rfl⟩

/-- Witness for C8: 192.168.1.5 to 8.8.8.8 classifies as send;
8.8.8.8 to 172.20.0.9 classifies as recv. -/
theorem c8_direction_classification_witness :
    (determineDirection { PacketInfo.zero with SrcIP := ipv4Render 192 168 1 5, DstIP := ipv4Render 8 8 8 8 }).Direction = "send" ∧
    (determineDirection { PacketInfo.zero with SrcIP := ipv4Render 8 8 8 8, DstIP := ipv4Render 172 20 0 9 }).Direction = "recv" := by
  constructor
  · exact ((c8_direction_classification _ 192 168 1 5 8 8 8 8 (by decide) (by decide)
      (by decide) (by decide) (by decide) (by decide) (by decide) (by decide)
      rfl rfl).1 ⟨by decide, by decide⟩).1
  · exact ((c8_direction_classification _ 8 8 8 8 172 20 0 9 (by decide) (by decide)
      (by decide) (by decide) (by decide) (by decide) (by decide) (by decide)
      rfl rfl).2.1 ⟨by decide, by decide⟩).1

/-! ## Store lemmas (C6, C7) -/

theorem lookupA_insertA {α : Type} (m : List (String × α)) (k q : String) (v : α) :
    lookupA (insertA m k v) q = if k = q then some v else lookupA m q := by
  induction m with
  | nil =>
      simp only [insertA, lookupA]
  | cons p rest ih =>
      obtain ⟨k1, v1⟩ := p
      by_cases h1 : k1 = k
      · subst h1
        simp only [insertA, if_pos rfl, lookupA]
        by_cases hq : k1 = q <;> simp [hq]
      · simp only [insertA, if_neg h1, lookupA]
        by_cases hq : k1 = q
        · rw [if_pos hq, if_neg (fun h => h1 (hq.trans h.symm)), if_pos hq]
        · rw [if_neg hq, ih]
          by_cases hkq : k = q <;> simp [hkq, hq]

theorem sumTB_insertA_none (m : List (String × RemoteIPStats)) (k : String)
    (v : RemoteIPStats) (h : lookupA m k = none) :
    ((insertA m k v).map (fun p => p.2.TotalBytes)).sum =
      (m.map (fun p => p.2.TotalBytes)).sum + v.TotalBytes := by
  induction m with
  | nil => simp [insertA]
  | cons p rest ih =>
      obtain ⟨k1, v1⟩ := p
      simp only [lookupA] at h
      by_cases h1 : k1 = k
      · rw [if_pos h1] at h
        cases h
      · rw [if_neg h1] at h
        simp only [insertA, if_neg h1, List.map_cons, List.sum_cons, ih h]
        omega

theorem sumTB_insertA_some (m : List (String × RemoteIPStats)) (k : String)
    (v w : RemoteIPStats) (h : lookupA m k = some w) :
    ((insertA m k v).map (fun p => p.2.TotalBytes)).sum + w.TotalBytes =
      (m.map (fun p => p.2.TotalBytes)).sum + v.TotalBytes := by
  induction m with
  | nil => simp [lookupA] at h
  | cons p rest ih =>
      obtain ⟨k1, v1⟩ := p
      simp only [lookupA] at h
      by_cases h1 : k1 = k
      · rw [if_pos h1] at h
        obtain rfl : v1 = w := Option.some.inj h
        simp only [insertA, if_pos h1, List.map_cons, List.sum_cons]
        omega
      · rw [if_neg h1] at h
        simp only [insertA, if_neg h1, List.map_cons, List.sum_cons]
        have := ih h
        omega

theorem updateStats_Records (s : RemoteIPStats) (info : PacketInfo) :
    (updateStats s info).Records = s.Records ++ [recordOf info] := by
  unfold updateStats
  lift_lets
  extract_lets s1 s2 s3 s4 s5 s6 s7 s8
  have h8 : s8.Records = s7.Records := by unfold s8; split_ifs <;> rfl
  have h7 : s7.Records = s6.Records := by unfold s7; split_ifs <;> rfl
  have h6 : s6.Records = s5.Records := by unfold s6; split_ifs <;> rfl
  have h5 : s5.Records = s4.Records := by unfold s5; split_ifs <;> rfl
  have h4 : s4.Records = s3.Records := by unfold s4; split_ifs <;> rfl
  have h3 : s3.Records = s2.Records := by unfold s3; split_ifs <;> rfl
  have h2 : s2.Records = s1.Records := by unfold s2; split_ifs <;> rfl
  rw [h8, h7, h6, h5, h4, h3, h2]

theorem updateStats_TotalPackets (s : RemoteIPStats) (info : PacketInfo) :
    (updateStats s info).TotalPackets = s.TotalPackets + 1 := by
  unfold updateStats
  lift_lets
  extract_lets s1 s2 s3 s4 s5 s6 s7 s8
  have h8 : s8.TotalPackets = s7.TotalPackets := by unfold s8; split_ifs <;> rfl
  have h7 : s7.TotalPackets = s6.TotalPackets := by unfold s7; split_ifs <;> rfl
  have h6 : s6.TotalPackets = s5.TotalPackets := by unfold s6; split_ifs <;> rfl
  have h5 : s5.TotalPackets = s4.TotalPackets := by unfold s5; split_ifs <;> rfl
  have h4 : s4.TotalPackets = s3.TotalPackets := by unfold s4; split_ifs <;> rfl
  have h3 : s3.TotalPackets = s2.TotalPackets := by unfold s3; split_ifs <;> rfl
  have h2 : s2.TotalPackets = s1.TotalPackets := by unfold s2; split_ifs <;> rfl
  rw [h8, h7, h6, h5, h4, h3, h2]

theorem updateStats_TotalBytes (s : RemoteIPStats) (info : PacketInfo) :
    (updateStats s info).TotalBytes = s.TotalBytes + info.Length := by
  unfold updateStats
  lift_lets
  extract_lets s1 s2 s3 s4 s5 s6 s7 s8
  have h8 : s8.TotalBytes = s7.TotalBytes := by unfold s8; split_ifs <;> rfl
  have h7 : s7.TotalBytes = s6.TotalBytes := by unfold s7; split_ifs <;> rfl
  have h6 : s6.TotalBytes = s5.TotalBytes := by unfold s6; split_ifs <;> rfl
  have h5 : s5.TotalBytes = s4.TotalBytes := by unfold s5; split_ifs <;> rfl
  have h4 : s4.TotalBytes = s3.TotalBytes := by unfold s4; split_ifs <;> rfl
  have h3 : s3.TotalBytes = s2.TotalBytes := by unfold s3; split_ifs <;> rfl
  have h2 : s2.TotalBytes = s1.TotalBytes := by unfold s2; split_ifs <;> rfl
  rw [h8, h7, h6, h5, h4, h3, h2]

theorem updateStats_SendPackets (s : RemoteIPStats) (info : PacketInfo) :
    (updateStats s info).SendPackets =
      (if info.Direction = "send" then s.SendPackets + 1 else s.SendPackets) := by
  unfold updateStats
  lift_lets
  extract_lets s1 s2 s3 s4 s5 s6 s7 s8
  have h8 : s8.SendPackets = s7.SendPackets := by unfold s8; split_ifs <;> rfl
  have h7 : s7.SendPackets = s6.SendPackets := by unfold s7; split_ifs <;> rfl
  have h6 : s6.SendPackets = s5.SendPackets := by unfold s6; split_ifs <;> rfl
  have h5 : s5.SendPackets = s4.SendPackets := by unfold s5; split_ifs <;> rfl
  have h4 : s4.SendPackets = s3.SendPackets := by unfold s4; split_ifs <;> rfl
  have h3 : s3.SendPackets = s2.SendPackets := by unfold s3; split_ifs <;> rfl
  have h2 : s2.SendPackets =
      (if info.Direction = "send" then s1.SendPackets + 1 else s1.SendPackets) := by
    unfold s2; split_ifs <;> rfl
  rw [h8, h7, h6, h5, h4, h3, h2]

theorem updateStats_RecvPackets (s : RemoteIPStats) (info : PacketInfo) :
    (updateStats s info).RecvPackets =
      (if info.Direction = "send" then s.RecvPackets
       else if info.Direction = "recv" then s.RecvPackets + 1
       else s.RecvPackets) := by
  unfold updateStats
  lift_lets
  extract_lets s1 s2 s3 s4 s5 s6 s7 s8
  have h8 : s8.RecvPackets = s7.RecvPackets := by unfold s8; split_ifs <;> rfl
  have h7 : s7.RecvPackets = s6.RecvPackets := by unfold s7; split_ifs <;> rfl
  have h6 : s6.RecvPackets = s5.RecvPackets := by unfold s6; split_ifs <;> rfl
  have h5 : s5.RecvPackets = s4.RecvPackets := by unfold s5; split_ifs <;> rfl
  have h4 : s4.RecvPackets = s3.RecvPackets := by unfold s4; split_ifs <;> rfl
  have h3 : s3.RecvPackets = s2.RecvPackets := by unfold s3; split_ifs <;> rfl
  have h2 : s2.RecvPackets =
      (if info.Direction = "send" then s1.RecvPackets
       else if info.Direction = "recv" then s1.RecvPackets + 1
       else s1.RecvPackets) := by
    unfold s2; split_ifs <;> rfl
  rw [h8, h7, h6, h5, h4, h3, h2]

theorem newStatsFor_fields (ds : DataStore) (ip : String) (t : Nat) :
    (newStatsFor ds ip t).Records = [] ∧
    (newStatsFor ds ip t).TotalPackets = 0 ∧
    (newStatsFor ds ip t).TotalBytes = 0 ∧
    (newStatsFor ds ip t).SendPackets = 0 ∧
    (newStatsFor ds ip t).RecvPackets = 0 := by
  unfold newStatsFor
  cases lookupA ds.dnsCache ip <;> exact ⟨rfl, rfl, rfl, rfl, rfl⟩

theorem statsConsistent_updateStats (s : RemoteIPStats) (info : PacketInfo)
    (h : statsConsistent s) : statsConsistent (updateStats s info) := by
  obtain ⟨h1, h2, h3, h4⟩ := h
  refine ⟨?_, ?_, ?_, ?_⟩
  · rw [updateStats_TotalPackets, updateStats_Records, List.length_append, h1]
    rfl
  · rw [updateStats_TotalBytes, updateStats_Records, List.map_append,
      List.sum_append, h2]
    rfl
  · rw [updateStats_SendPackets, updateStats_Records, List.countP_append, h3]
    by_cases hdir : info.Direction = "send"
    · rw [if_pos hdir]
      simp [List.countP, List.countP.go, recordOf, hdir]
    · rw [if_neg hdir]
      simp only [List.countP, List.countP.go, recordOf]
      rw [beq_eq_false_iff_ne.mpr hdir]
      exact (Nat.add_zero _).symm
  · rw [updateStats_RecvPackets, updateStats_Records, List.countP_append, h4]
    by_cases hdir : info.Direction = "send"
    · rw [if_pos hdir]
      have hnr : ¬ info.Direction = "recv" := by rw [hdir]; decide
      simp only [List.countP, List.countP.go, recordOf]
      rw [beq_eq_false_iff_ne.mpr hnr]
      exact (Nat.add_zero _).symm
    · rw [if_neg hdir]
      by_cases hdr : info.Direction = "recv"
      · rw [if_pos hdr]
        simp [List.countP, List.countP.go, recordOf, hdr]
      · rw [if_neg hdr]
        simp only [List.countP, List.countP.go, recordOf]
        rw [beq_eq_false_iff_ne.mpr hdr]
        exact (Nat.add_zero _).symm

theorem statsConsistent_newStatsFor (ds : DataStore) (ip : String) (t : Nat) :
    statsConsistent (newStatsFor ds ip t) := by
  obtain ⟨h1, h2, h3, h4, h5⟩ := newStatsFor_fields ds ip t
  exact ⟨by rw [h2, h1]; rfl, by rw [h3, h1]; rfl, by rw [h4, h1]; rfl,
    by rw [h5, h1]; rfl⟩

theorem foldl_preserve {α β : Type} (P : α → Prop) (f : α → β → α)
    (h : ∀ a b, P a → P (f a b)) :
    ∀ (l : List β) (a : α), P a → P (l.foldl f a) := by
  intro l
  induction l with
  | nil => intro a ha; exact ha
  | cons b t ih => intro a ha; exact ih (f a b) (h a b ha)

theorem storeDNSForIP_stats_consistent (q : String) (ds : DataStore)
    (rip : String)
    (h : ∀ ip s, lookupA ds.stats ip = some s → statsConsistent s) :
    ∀ ip s, lookupA (storeDNSForIP q ds rip).stats ip = some s →
      statsConsistent s := by
  intro ip s hs
  unfold storeDNSForIP at hs
  dsimp only at hs
  rcases hm : lookupA ds.stats rip with _ | w
  · rw [hm] at hs
    exact h ip s hs
  · rw [hm] at hs
    dsimp only at hs
    rw [lookupA_insertA] at hs
    by_cases hq : rip = ip
    · rw [if_pos hq] at hs
      have hw := h rip w hm
      have : s = { w with DNSNames := bump w.DNSNames q } := (Option.some.inj hs).symm
      rw [this]
      exact hw
    · rw [if_neg hq] at hs
      exact h ip s hs

theorem storeDNSForIP_cache_nodup (q : String) (ds : DataStore) (rip : String)
    (h : ∀ ip l, lookupA ds.dnsCache ip = some l → l.Nodup) :
    ∀ ip l, lookupA (storeDNSForIP q ds rip).dnsCache ip = some l →
      l.Nodup := by
  intro ip l hl
  unfold storeDNSForIP at hl
  dsimp only at hl
  rcases hm : lookupA ds.stats rip with _ | w <;> rw [hm] at hl <;>
    dsimp only at hl <;> rw [lookupA_insertA] at hl
  case none =>
    by_cases hq : rip = ip
    · rw [if_pos hq] at hl
      rcases hc : lookupA ds.dnsCache rip with _ | l0
      · rw [hc] at hl
        simp only [Option.getD_none] at hl
        have : l = if q ∈ ([] : List String) then [] else [] ++ [q] :=
          (Option.some.inj hl).symm
        rw [this]
        simp
      · rw [hc] at hl
        simp only [Option.getD_some] at hl
        have hrepl : l = if q ∈ l0 then l0 else l0 ++ [q] :=
          (Option.some.inj hl).symm
        rw [hrepl]
        by_cases hqin : q ∈ l0
        · rw [if_pos hqin]
          exact h rip l0 hc
        · rw [if_neg hqin]
          rw [List.nodup_append]
          refine ⟨h rip l0 hc, List.nodup_singleton q, ?_⟩
          intro a ha hb
          simp only [List.mem_singleton] at hb
          subst hb
          exact hqin ha
    · rw [if_neg hq] at hl
      exact h ip l hl
  case some =>
    by_cases hq : rip = ip
    · rw [if_pos hq] at hl
      rcases hc : lookupA ds.dnsCache rip with _ | l0
      · rw [hc] at hl
        simp only [Option.getD_none] at hl
        have : l = if q ∈ ([] : List String) then [] else [] ++ [q] :=
          (Option.some.inj hl).symm
        rw [this]
        simp
      · rw [hc] at hl
        simp only [Option.getD_some] at hl
        have hrepl : l = if q ∈ l0 then l0 else l0 ++ [q] :=
          (Option.some.inj hl).symm
        rw [hrepl]
        by_cases hqin : q ∈ l0
        · rw [if_pos hqin]
          exact h rip l0 hc
        · rw [if_neg hqin]
          rw [List.nodup_append]
          refine ⟨h rip l0 hc, List.nodup_singleton q, ?_⟩
          intro a ha hb
          simp only [List.mem_singleton] at hb
          subst hb
          exact hqin ha
    · rw [if_neg hq] at hl
      exact h ip l hl

theorem storeDNSForIP_consistent (q : String) (ds : DataStore) (rip : String)
    (h : storeConsistent ds) : storeConsistent (storeDNSForIP q ds rip) :=
  ⟨storeDNSForIP_stats_consistent q ds rip h.1,
   storeDNSForIP_cache_nodup q ds rip h.2⟩

theorem Store_consistent (ds : DataStore) (info : PacketInfo)
    (h : storeConsistent ds) : storeConsistent (Store ds info) := by
  unfold Store
  by_cases hrem : info.RemoteIP = ""
  · rw [if_pos hrem]
    exact h
  · rw [if_neg hrem]
    lift_lets
    extract_lets st0 st1 ds1
    have hst0 : statsConsistent st0 := by
      unfold st0
      rcases hm : lookupA ds.stats info.RemoteIP with _ | w
      · exact statsConsistent_newStatsFor ds info.RemoteIP info.Timestamp
      · exact h.1 info.RemoteIP w hm
    have hds1 : storeConsistent ds1 := by
      refine ⟨?_, ?_⟩
      · intro ip s hs
        have hs' : lookupA (insertA ds.stats info.RemoteIP st1) ip = some s := hs
        rw [lookupA_insertA] at hs'
        by_cases hq : info.RemoteIP = ip
        · rw [if_pos hq] at hs'
          have hrepl : s = st1 := (Option.some.inj hs').symm
          rw [hrepl]
          exact statsConsistent_updateStats st0 info hst0
        · rw [if_neg hq] at hs'
          exact h.1 ip s hs'
      · intro ip l hl
        exact h.2 ip l hl
    by_cases hdns : info.IsDNS ∧ info.DNSQueryName ≠ "" ∧ info.DNSResponseIPs ≠ []
    · rw [if_pos hdns]
      exact foldl_preserve storeConsistent (storeDNSForIP info.DNSQueryName)
        (fun a b ha => storeDNSForIP_consistent info.DNSQueryName a b ha)
        info.DNSResponseIPs ds1 hds1
    · rw [if_neg hdns]
      exact hds1

theorem storeConsistent_empty : storeConsistent DataStore.empty := by
  constructor
  · intro ip s hs
    simp [DataStore.empty, lookupA] at hs
  · intro ip l hl
    simp [DataStore.empty, lookupA] at hl

theorem storeList_consistent (infos : List PacketInfo) :
    storeConsistent (storeList DataStore.empty infos) :=
  foldl_preserve storeConsistent Store (fun a b ha => Store_consistent a b ha)
    infos DataStore.empty storeConsistent_empty

theorem storeDNSForIP_totalBytes (q : String) (ds : DataStore) (rip : String) :
    GetTotalBytes (storeDNSForIP q ds rip) = GetTotalBytes ds := by
  unfold storeDNSForIP GetTotalBytes
  dsimp only
  rcases hm : lookupA ds.stats rip with _ | w
  · rfl
  · dsimp only
    have hs := sumTB_insertA_some ds.stats rip
      { w with DNSNames := bump w.DNSNames q } w hm
    have hTB : RemoteIPStats.TotalBytes
        { w with DNSNames := bump w.DNSNames q } = w.TotalBytes := rfl
    rw [hTB] at hs
    omega

theorem Store_totalBytes (ds : DataStore) (info : PacketInfo) :
    GetTotalBytes (Store ds info) =
      GetTotalBytes ds + (if info.RemoteIP = "" then 0 else info.Length) := by
  unfold Store
  by_cases hrem : info.RemoteIP = ""
  · rw [if_pos hrem, if_pos hrem]
    exact (Nat.add_zero _).symm
  · rw [if_neg hrem, if_neg hrem]
    lift_lets
    extract_lets st0 st1 ds1
    have hds1 : GetTotalBytes ds1 = GetTotalBytes ds + info.Length := by
      show ((insertA ds.stats info.RemoteIP st1).map
        (fun p => p.2.TotalBytes)).sum = GetTotalBytes ds + info.Length
      rcases hm : lookupA ds.stats info.RemoteIP with _ | w
      · have hz := sumTB_insertA_none ds.stats info.RemoteIP st1 hm
        have hst1 : st1.TotalBytes = info.Length := by
          have h0 : st0.TotalBytes = 0 := by
            unfold st0
            rw [hm]
            exact (newStatsFor_fields ds info.RemoteIP info.Timestamp).2.2.1
          have := updateStats_TotalBytes st0 info
          unfold st1
          omega
        rw [hz, hst1]
        rfl
      · have hz := sumTB_insertA_some ds.stats info.RemoteIP st1 w hm
        have hst1 : st1.TotalBytes = w.TotalBytes + info.Length := by
          have h0 : st0.TotalBytes = w.TotalBytes := by
            unfold st0
            rw [hm]
          have := updateStats_TotalBytes st0 info
          unfold st1
          omega
        rw [hst1] at hz
        have : GetTotalBytes ds = (ds.stats.map (fun p => p.2.TotalBytes)).sum :=
          rfl
        omega
    by_cases hdns : info.IsDNS ∧ info.DNSQueryName ≠ "" ∧ info.DNSResponseIPs ≠ []
    · rw [if_pos hdns]
      have hfold := foldl_preserve
        (fun d => GetTotalBytes d = GetTotalBytes ds + info.Length)
        (storeDNSForIP info.DNSQueryName)
        (fun a b ha => by
          show GetTotalBytes (storeDNSForIP info.DNSQueryName a b) =
            GetTotalBytes ds + info.Length
          rw [storeDNSForIP_totalBytes]
          exact ha)
        info.DNSResponseIPs ds1 hds1
      exact hfold
    · rw [if_neg hdns]
      exact hds1

theorem storeList_totalBytes (infos : List PacketInfo) :
    ∀ ds : DataStore, GetTotalBytes (storeList ds infos) =
      GetTotalBytes ds +
        ((infos.filter (fun i => i.RemoteIP != "")).map (fun i => i.Length)).sum := by
  induction infos with
  | nil => intro ds; simp [storeList]
  | cons i t ih =>
    intro ds
    have hstep : storeList ds (i :: t) = storeList (Store ds i) t := rfl
    rw [hstep, ih (Store ds i), Store_totalBytes]
    by_cases hrem : i.RemoteIP = ""
    · rw [if_pos hrem]
      have hf : (i :: t).filter (fun j => j.RemoteIP != "") =
          t.filter (fun j => j.RemoteIP != "") := by
        rw [List.filter_cons]
        rw [show (i.RemoteIP != "") = false by
          rw [bne_eq_false_iff_eq]; exact hrem]
        simp
      rw [hf]
      omega
    · rw [if_neg hrem]
      have hf : (i :: t).filter (fun j => j.RemoteIP != "") =
          i :: t.filter (fun j => j.RemoteIP != "") := by
        rw [List.filter_cons]
        rw [show (i.RemoteIP != "") = true by
          rw [bne_iff_ne]; exact hrem]
        simp
      rw [hf]
      simp only [List.map_cons, List.sum_cons]
      omega

theorem totalPackets_eq_send_add_recv (s : RemoteIPStats)
    (h : statsConsistent s)
    (hdir : ∀ r ∈ s.Records, r.Direction = "send" ∨ r.Direction = "recv") :
    s.TotalPackets = s.SendPackets + s.RecvPackets := by
  obtain ⟨h1, _, h3, h4⟩ := h
  rw [h1, h3, h4]
  rw [List.length_eq_countP_add_countP (p := fun r => r.Direction == "send")
    s.Records]
  congr 1
  refine List.countP_congr ?_
  intro r hr
  rcases hdir r hr with h | h <;> rw [h] <;> decide

/-- C6: processing the DNS response naming 1.2.3.4 as "bad.example" before
any packet involving 1.2.3.4 leaves the eventual stats entry for 1.2.3.4
with the DNS-name table `[("bad.example", 1)]` — the name appears exactly
once; a duplicate DNS response before the data packet changes nothing; a
duplicate after it bumps the counter but keeps a single table entry and a
single cache entry; and every DNS-cache list produced by any `Store`
sequence is duplicate-free. -/
theorem c6_dns_correlation :
    ((lookupA (storeList DataStore.empty [dnsRespPacket, dataPacket1234]).stats
        "1.2.3.4").map (fun s => s.DNSNames)) = some [("bad.example", 1)] ∧
    ((lookupA (storeList DataStore.empty
        [dnsRespPacket, dnsRespPacket, dataPacket1234]).stats
        "1.2.3.4").map (fun s => s.DNSNames)) = some [("bad.example", 1)] ∧
    ((lookupA (storeList DataStore.empty
        [dnsRespPacket, dataPacket1234, dnsRespPacket]).stats
        "1.2.3.4").map (fun s => s.DNSNames.map Prod.fst)) =
      some ["bad.example"] ∧
    (lookupA (storeList DataStore.empty
        [dnsRespPacket, dataPacket1234, dnsRespPacket]).dnsCache "1.2.3.4") =
      some ["bad.example"] ∧
    (∀ infos ip l,
      lookupA (storeList DataStore.empty infos).dnsCache ip = some l →
        l.Nodup) := by
  refine ⟨by decide, by decide, by decide, by decide, ?_⟩
  intro infos ip l hl
  exact (storeList_consistent infos).2 ip l hl

theorem c6_dns_correlation_witness : (["bad.example"] : List String).Nodup :=
  c6_dns_correlation.2.2.2.2 [dnsRespPacket] "1.2.3.4" ["bad.example"]
    (by decide)

/-- C7: after any sequence of `Store` calls starting from the empty store,
every stats entry has `TotalPackets` equal to its record count and
`TotalBytes` equal to the sum of its records' `PacketSize`; if every
record's direction is send or recv then `TotalPackets` splits as
`SendPackets + RecvPackets`; and the total byte count over all IPs equals
the summed lengths of exactly the packets with a non-empty remote IP. -/
theorem c7_aggregate_consistency :
    (∀ infos ip s,
      lookupA (storeList DataStore.empty infos).stats ip = some s →
        s.TotalPackets = s.Records.length ∧
        s.TotalBytes = (s.Records.map (fun r => r.PacketSize)).sum ∧
        ((∀ r ∈ s.Records, r.Direction = "send" ∨ r.Direction = "recv") →
          s.TotalPackets = s.SendPackets + s.RecvPackets)) ∧
    (∀ infos,
      GetTotalBytes (storeList DataStore.empty infos) =
        ((infos.filter (fun i => i.RemoteIP != "")).map
          (fun i => i.Length)).sum) := by
  constructor
  · intro infos ip s hs
    obtain ⟨h1, h2, h3, h4⟩ := (storeList_consistent infos).1 ip s hs
    exact ⟨h1, h2, fun hdir =>
      totalPackets_eq_send_add_recv s ⟨h1, h2, h3, h4⟩ hdir⟩
  · intro infos
    rw [storeList_totalBytes infos DataStore.empty]
    have h0 : GetTotalBytes DataStore.empty = 0 := rfl
    omega

theorem c7_aggregate_consistency_witness :
    (updateStats (newStatsFor DataStore.empty "1.2.3.4"
        dataPacket1234.Timestamp) dataPacket1234).TotalPackets =
      (updateStats (newStatsFor DataStore.empty "1.2.3.4"
        dataPacket1234.Timestamp) dataPacket1234).SendPackets +
      (updateStats (newStatsFor DataStore.empty "1.2.3.4"
        dataPacket1234.Timestamp) dataPacket1234).RecvPackets ∧
    GetTotalBytes (storeList DataStore.empty
      [dnsRespPacket, dataPacket1234]) = 160 := by
  constructor
  · refine (c7_aggregate_consistency.1 [dataPacket1234] "1.2.3.4"
      (updateStats (newStatsFor DataStore.empty "1.2.3.4"
        dataPacket1234.Timestamp) dataPacket1234) rfl).2.2 ?_
    rw [updateStats_Records]
    intro r hr
    rw [(newStatsFor_fields DataStore.empty "1.2.3.4"
      dataPacket1234.Timestamp).1] at hr
    simp only [List.nil_append, List.mem_singleton] at hr
    subst hr
    left
    rfl
  · rw [c7_aggregate_consistency.2 [dnsRespPacket, dataPacket1234]]
    decide
